import Mathlib

/-! Frontend workflow handlers of Devesh409/backend

A shallow embedding of the event handlers of `frontend/src/pages/GeneratePage.js`
and `frontend/src/pages/UploadPage.js` and of the request builders of
`frontend/src/utils/api.js`.

Modelling conventions
* React state is a record; a handler is a function from the state at the time
  it is invoked to the state once it has run to completion, together with the
  ordered trace of its observable effects (requests sent, toasts, file saves).
* A remote call is an effect in the trace; its outcome (the promise resolving
  with a response or rejecting with an error) is supplied by the environment.
* The part of an async handler that runs after its `await` (the rest of the
  `try`, the `catch` and the `finally`) is a function of its own, named
  `...Settle`, so that it can be applied to a later state as well.
-/

namespace Frontend

/-! ## JavaScript values -/

/-- A JavaScript number as these pages produce it: an integer, or NaN. -/
inductive JSNumber where
  | nan
  | int (n : Int)
  deriving DecidableEq, Repr

/-- Scalar values found in the fields of the objects returned by the server. -/
inductive JSValue where
  | undefined
  | null
  | bool (b : Bool)
  | number (n : JSNumber)
  | string (s : String)
  deriving DecidableEq, Repr

/-- A plain JavaScript object: its own properties, in insertion order. -/
structure JSObject where
  entries : List (String × JSValue)
  deriving DecidableEq, Repr

/-- Property read `o.key`: the value of the property, `undefined` when absent. -/
def JSObject.get (o : JSObject) (key : String) : JSValue :=
  match o.entries.lookup key with
  | some v => v
  | none => JSValue.undefined

/-- Assignment of one property on a list of entries: an existing key keeps its
place and takes the new value, a new key goes to the end. -/
def setEntry (key : String) (value : JSValue) :
    List (String × JSValue) → List (String × JSValue)
  | [] => [(key, value)]
  | (k, v) :: rest =>
    if k = key then (k, value) :: rest else (k, v) :: setEntry key value rest

/-- Object literal `{ ...o, key: value }`. -/
def JSObject.set (o : JSObject) (key : String) (value : JSValue) : JSObject :=
  ⟨setEntry key value o.entries⟩

/-- The characters `parseInt` skips at the start of its input
(ECMAScript WhiteSpace and LineTerminator). -/
def isStrWhiteSpaceChar (c : Char) : Bool :=
  decide (c.toNat ∈ [0x09, 0x0A, 0x0B, 0x0C, 0x0D, 0x20, 0xA0, 0x1680, 0x2028, 0x2029,
    0x202F, 0x205F, 0x3000, 0xFEFF]) || (decide (0x2000 ≤ c.toNat) && decide (c.toNat ≤ 0x200A))

/-- Value of a character as a digit, for radices up to 36. -/
def digitValue (c : Char) : Option Nat :=
  if c.isDigit then some (c.toNat - 48)
  else if c.isLower then some (c.toNat - 97 + 10)
  else if c.isUpper then some (c.toNat - 65 + 10)
  else none

/-- The longest run of leading characters that are digits of the radix, as values. -/
def leadingDigits (radix : Nat) : List Char → List Nat
  | [] => []
  | c :: rest =>
    match digitValue c with
    | some d => if d < radix then d :: leadingDigits radix rest else []
    | none => []

/-- `parseInt(input)` with no radix argument: leading white space is skipped, a
sign is read, a `0x` or `0X` start selects radix 16, and the longest run of
digits is converted; no digit at all gives NaN. Results are exact integers
(the rounding of values beyond 2^53 and the sign of zero are not modelled). -/
def parseInt (input : String) : JSNumber :=
  let s := input.data.dropWhile isStrWhiteSpaceChar
  let signed : Bool × List Char :=
    match s with
    | '-' :: r => (true, r)
    | '+' :: r => (false, r)
    | _ => (false, s)
  let based : Nat × List Char :=
    match signed.2 with
    | '0' :: 'x' :: r => (16, r)
    | '0' :: 'X' :: r => (16, r)
    | _ => (10, signed.2)
  let digits := leadingDigits based.1 based.2
  if digits = [] then JSNumber.nan
  else
    let magnitude : Int := (digits.foldl (fun acc d => acc * based.1 + d) 0 : Nat)
    JSNumber.int (if signed.1 then -magnitude else magnitude)

/-- Rendering of a non-negative integer inside a template literal: its decimal
digits (exact for the integers below 10^21, which covers array lengths and
`Date.now()`). -/
def numberToString (n : Nat) : String :=
  toString n

/-! ## `utils/api.js` -/

/-- A file handed over by the drop zone. -/
structure File where
  name : String
  type : String
  content : List Nat
  deriving DecidableEq, Repr

/-- Body of `POST /questions/generate`. -/
structure GenerateBody where
  ebook_id : String
  question_types : List String
  difficulty : String
  num_questions : JSNumber
  deriving DecidableEq, Repr

/-- Body of `POST /assignments/generate`. -/
structure AssignmentBody where
  question_ids : List JSValue
  student_name : String
  roll_number : String
  subject : String
  handwriting_style : String
  pen_color : String
  deriving DecidableEq, Repr

/-- Payload of a request. -/
inductive RequestData where
  | empty
  | formData (file : File)
  | questions (body : GenerateBody)
  | assignment (body : AssignmentBody)
  deriving DecidableEq, Repr

/-- An axios request configuration, with the one header the client sets. -/
structure AxiosConfig where
  method : String
  url : String
  data : RequestData
  responseType : Option String
  authorization : Option String
  deriving DecidableEq, Repr

/-- A rejected request; `detail` is `error.response?.data?.detail`, absent when
any link of the chain is missing. -/
structure AxiosError where
  detail : Option String
  deriving DecidableEq, Repr

/-- The request interceptor: `token` is `localStorage.getItem('token')`; a
truthy token (present and not the empty string) is written to
`headers.Authorization`. -/
def requestInterceptor (token : Option String) (config : AxiosConfig) : AxiosConfig :=
  match token with
  | some t => if t ≠ "" then { config with authorization := some ("Bearer " ++ t) } else config
  | none => config

/-- `api.post(url, data, config)` as it leaves the client, after the interceptor. -/
def api.post (token : Option String) (url : String) (data : RequestData)
    (responseType : Option String) : AxiosConfig :=
  requestInterceptor token
    { method := "post", url := url, data := data, responseType := responseType,
      authorization := none }

/-- `ebooksAPI.upload(file)`. -/
def ebooksAPI.upload (token : Option String) (file : File) : AxiosConfig :=
  api.post token "/ebooks/upload" (RequestData.formData file) none

/-- `questionsAPI.generate(ebookId, questionTypes, difficulty, numQuestions)`. -/
def questionsAPI.generate (token : Option String) (ebookId : String)
    (questionTypes : List String) (difficulty : String) (numQuestions : JSNumber) :
    AxiosConfig :=
  api.post token "/questions/generate"
    (RequestData.questions
      { ebook_id := ebookId, question_types := questionTypes, difficulty := difficulty,
        num_questions := numQuestions })
    none

/-- `assignmentsAPI.generate(questionIds, studentName, rollNumber, subject,
handwritingStyle, penColor)`. -/
def assignmentsAPI.generate (token : Option String) (questionIds : List JSValue)
    (studentName rollNumber subject handwritingStyle penColor : String) : AxiosConfig :=
  api.post token "/assignments/generate"
    (RequestData.assignment
      { question_ids := questionIds, student_name := studentName, roll_number := rollNumber,
        subject := subject, handwriting_style := handwritingStyle, pen_color := penColor })
    (some "blob")

/-! ## Observable effects -/

/-- What a handler does besides updating the page state. -/
inductive Effect where
  | request (config : AxiosConfig)
  | toastError (message : String)
  | toastSuccess (message : String)
  | download (filename : String) (blob : List Nat)
  deriving DecidableEq, Repr

/-- The remote calls of a trace, in order. -/
def requestsOf : List Effect → List AxiosConfig
  | [] => []
  | Effect.request c :: rest => c :: requestsOf rest
  | _ :: rest => requestsOf rest

/-- The file saves of a trace, in order. -/
def downloadsOf : List Effect → List (String × List Nat)
  | [] => []
  | Effect.download name blob :: rest => (name, blob) :: downloadsOf rest
  | _ :: rest => downloadsOf rest

/-- The error toasts of a trace, in order. -/
def errorsOf : List Effect → List String
  | [] => []
  | Effect.toastError m :: rest => m :: errorsOf rest
  | _ :: rest => errorsOf rest

/-! ## `pages/GeneratePage.js` -/

/-- The `useState` cells of `GeneratePage`. -/
structure GeneratePageState where
  ebooks : List JSObject
  selectedEbook : String
  questionTypes : List String
  difficulty : String
  numQuestions : JSNumber
  generating : Bool
  generatedQuestions : List JSObject
  showExport : Bool
  studentName : String
  rollNumber : String
  subject : String
  handwritingStyle : String
  penColor : String
  exporting : Bool
  deriving DecidableEq, Repr

/-- The state of a freshly mounted page (the `useState` initial values). -/
def GeneratePageState.initial : GeneratePageState :=
  { ebooks := [], selectedEbook := "", questionTypes := ["MCQ"], difficulty := "medium",
    numQuestions := JSNumber.int 5, generating := false, generatedQuestions := [],
    showExport := false, studentName := "", rollNumber := "", subject := "",
    handwritingStyle := "neat", penColor := "blue", exporting := false }

/-- The `onChange` of the number-of-questions input:
`setNumQuestions(parseInt(e.target.value))`. -/
def onChangeNumQuestions (value : String) (s : GeneratePageState) : GeneratePageState :=
  { s with numQuestions := parseInt value }

/-- The message of the generate `catch`:
`error.response?.data?.detail || 'Failed to generate questions'`. -/
def generateErrorMessage (error : AxiosError) : String :=
  match error.detail with
  | some d => if d ≠ "" then d else "Failed to generate questions"
  | none => "Failed to generate questions"

/-- The part of `handleGenerate` after the `await`: the rest of the `try` when the
call resolved, the `catch` when it rejected, then the `finally`. -/
def handleGenerateSettle (result : Except AxiosError (List JSObject))
    (s : GeneratePageState) : GeneratePageState × List Effect :=
  match result with
  | Except.ok data =>
    ({ s with generatedQuestions := data, showExport := true, generating := false },
      [Effect.toastSuccess ("Generated " ++ numberToString data.length ++ " questions!")])
  | Except.error error =>
    ({ s with generating := false }, [Effect.toastError (generateErrorMessage error)])

/-- One run of `handleGenerate` to completion. `remote` is the outcome of the
generate call for the request sent. -/
def handleGenerate (token : Option String)
    (remote : AxiosConfig → Except AxiosError (List JSObject))
    (s : GeneratePageState) : GeneratePageState × List Effect :=
  if s.selectedEbook = "" then
    (s, [Effect.toastError "Please select an e-book"])
  else if s.questionTypes.length = 0 then
    (s, [Effect.toastError "Please select at least one question type"])
  else
    let request :=
      questionsAPI.generate token s.selectedEbook s.questionTypes s.difficulty s.numQuestions
    let settled := handleGenerateSettle (remote request) { s with generating := true }
    (settled.1, Effect.request request :: settled.2)

/-- The suggested name of the saved file, from the value of `Date.now()`. -/
def exportFilename (now : Nat) : String :=
  "assignment_" ++ numberToString now ++ ".pdf"

/-- The part of `handleExport` after the `await`; `now` is the value of
`Date.now()` when the download link is built. -/
def handleExportSettle (result : Except AxiosError (List Nat)) (now : Nat)
    (s : GeneratePageState) : GeneratePageState × List Effect :=
  match result with
  | Except.ok data =>
    ({ s with exporting := false },
      [Effect.download (exportFilename now) data,
       Effect.toastSuccess "Assignment PDF downloaded!"])
  | Except.error _ =>
    ({ s with exporting := false }, [Effect.toastError "Failed to generate PDF"])

/-- One run of `handleExport` to completion. -/
def handleExport (token : Option String)
    (remote : AxiosConfig → Except AxiosError (List Nat)) (now : Nat)
    (s : GeneratePageState) : GeneratePageState × List Effect :=
  if s.generatedQuestions.length = 0 then
    (s, [Effect.toastError "No questions to export"])
  else if s.studentName = "" ∨ s.rollNumber = "" ∨ s.subject = "" then
    (s, [Effect.toastError "Please fill in all assignment details"])
  else
    let questionIds := s.generatedQuestions.map (fun q => q.get "id")
    let request :=
      assignmentsAPI.generate token questionIds s.studentName s.rollNumber s.subject
        s.handwritingStyle s.penColor
    let settled := handleExportSettle (remote request) now { s with exporting := true }
    (settled.1, Effect.request request :: settled.2)

/-- A page on which an e-book was chosen, with the initial configuration. -/
def configuredPage : GeneratePageState :=
  { GeneratePageState.initial with selectedEbook := "ebook-1" }

/-- Two questions as the server returns them. -/
def sampleQuestions : List JSObject :=
  [⟨[("id", JSValue.string "q1"), ("question_type", JSValue.string "MCQ"),
     ("question", JSValue.string "What is a cell?"), ("answer", JSValue.string "A unit of life")]⟩,
   ⟨[("id", JSValue.string "q2"), ("question_type", JSValue.string "MCQ"),
     ("question", JSValue.string "What is a gene?"), ("answer", JSValue.string "A unit of heredity")]⟩]

/-- A page showing the result of an earlier generation. -/
def generatedPage : GeneratePageState :=
  { configuredPage with generatedQuestions := sampleQuestions, showExport := true }

/-! ## `pages/UploadPage.js` -/

/-- The `useState` cells of `UploadPage`. -/
structure UploadPageState where
  uploading : Bool
  uploadedFiles : List JSObject
  deriving DecidableEq, Repr

/-- The part of `uploadFile` after the `await`: on a resolved call the item
`{ ...response.data, status: 'success' }` is appended and a success toast shown,
on a rejected call an error toast is shown and `{ name: file.name, status: 'error' }`
is appended; the `finally` clears `uploading`. -/
def uploadFileSettle (file : File) (result : Except AxiosError JSObject)
    (s : UploadPageState) : UploadPageState × List Effect :=
  match result with
  | Except.ok data =>
    ({ uploading := false,
       uploadedFiles := s.uploadedFiles ++ [data.set "status" (JSValue.string "success")] },
      [Effect.toastSuccess (file.name ++ " uploaded successfully!")])
  | Except.error _ =>
    ({ uploading := false,
       uploadedFiles := s.uploadedFiles ++
         [⟨[("name", JSValue.string file.name), ("status", JSValue.string "error")]⟩] },
      [Effect.toastError ("Failed to upload " ++ file.name)])

/-- One run of `uploadFile` to completion; `result` is the outcome of its
upload call. -/
def uploadFile (token : Option String) (file : File) (result : Except AxiosError JSObject)
    (s : UploadPageState) : UploadPageState × List Effect :=
  let settled := uploadFileSettle file result { s with uploading := true }
  (settled.1, Effect.request (ebooksAPI.upload token file) :: settled.2)

/-- The loop of `onDrop` from position `i` of the batch: each file is uploaded
and awaited before the next one is taken. -/
def onDropFrom (token : Option String) (outcome : Nat → Except AxiosError JSObject) :
    Nat → List File → UploadPageState → UploadPageState × List Effect
  | _, [], s => (s, [])
  | i, file :: rest, s =>
    let first := uploadFile token file (outcome i) s
    let others := onDropFrom token outcome (i + 1) rest first.1
    (others.1, first.2 ++ others.2)

/-- One run of `onDrop` to completion; `outcome i` is the outcome of the upload
of the file at position `i` of the batch. -/
def onDrop (token : Option String) (outcome : Nat → Except AxiosError JSObject)
    (acceptedFiles : List File) (s : UploadPageState) : UploadPageState × List Effect :=
  onDropFrom token outcome 0 acceptedFiles s

/-- The item `uploadFile` records for a file, by outcome of its upload call. -/
def recordedItem (file : File) (result : Except AxiosError JSObject) : JSObject :=
  match result with
  | Except.ok data => data.set "status" (JSValue.string "success")
  | Except.error _ =>
    ⟨[("name", JSValue.string file.name), ("status", JSValue.string "error")]⟩

/-- The items recorded for a batch taken from position `i` on. -/
def recordedItemsFrom (outcome : Nat → Except AxiosError JSObject) :
    Nat → List File → List JSObject
  | _, [] => []
  | i, file :: rest => recordedItem file (outcome i) :: recordedItemsFrom outcome (i + 1) rest

/-- A batch of three files. -/
def sampleBatch : List File :=
  [⟨"a.pdf", "application/pdf", [37, 80, 68, 70]⟩, ⟨"b.txt", "text/plain", [104, 105]⟩,
   ⟨"c.epub", "application/epub+zip", [80, 75]⟩]

/-- The data the server returns for an uploaded e-book. -/
def sampleEbook : JSObject :=
  ⟨[("id", JSValue.string "ebook-1"), ("title", JSValue.string "a"),
    ("word_count", JSValue.number (JSNumber.int 1200))]⟩

/-- The number a list of decimal digit characters stands for. -/
def digitsValue (cs : List Char) : Nat :=
  cs.foldl (fun acc c => acc * 10 + (c.toNat - 48)) 0

/-- A page with two generated questions and the assignment details filled in. -/
def exportReadyPage : GeneratePageState :=
  { generatedPage with studentName := "Asha Rao", rollNumber := "A123",
                       subject := "Biology" }

/-! ## The handlers up to their `await`, and the buttons that invoke them -/

/-- The part of `handleGenerate` before its `await`: the two guards, then
`setGenerating(true)` and the call. Gives the state and the trace so far, and
the request whose outcome is awaited when one was sent. -/
def handleGenerateStart (token : Option String) (s : GeneratePageState) :
    GeneratePageState × List Effect × Option AxiosConfig :=
  if s.selectedEbook = "" then
    (s, [Effect.toastError "Please select an e-book"], none)
  else if s.questionTypes.length = 0 then
    (s, [Effect.toastError "Please select at least one question type"], none)
  else
    let request :=
      questionsAPI.generate token s.selectedEbook s.questionTypes s.difficulty s.numQuestions
    ({ s with generating := true }, [Effect.request request], some request)

/-- The part of `handleExport` before its `await`. -/
def handleExportStart (token : Option String) (s : GeneratePageState) :
    GeneratePageState × List Effect × Option AxiosConfig :=
  if s.generatedQuestions.length = 0 then
    (s, [Effect.toastError "No questions to export"], none)
  else if s.studentName = "" ∨ s.rollNumber = "" ∨ s.subject = "" then
    (s, [Effect.toastError "Please fill in all assignment details"], none)
  else
    let questionIds := s.generatedQuestions.map (fun q => q.get "id")
    let request :=
      assignmentsAPI.generate token questionIds s.studentName s.rollNumber s.subject
        s.handwritingStyle s.penColor
    ({ s with exporting := true }, [Effect.request request], some request)

/-- The part of `uploadFile` before its `await`: `setUploading(true)` and the call. -/
def uploadFileStart (token : Option String) (file : File) (s : UploadPageState) :
    UploadPageState × List Effect :=
  ({ s with uploading := true }, [Effect.request (ebooksAPI.upload token file)])

/-- The code of `handleGenerate` after the `await` of a call that was started:
nothing runs when the start returned at a guard. -/
def resumeGenerate (pending : Option AxiosConfig)
    (result : Except AxiosError (List JSObject)) (s : GeneratePageState) :
    GeneratePageState × List Effect :=
  match pending with
  | some _ => handleGenerateSettle result s
  | none => (s, [])

/-- Two overlapping runs of `handleGenerate`: the call T1 is sent from `s`, the
newer call T2 from the state T1 left behind, then T2 settles with `second` and,
after it, T1 settles with `first`. -/
def overlappingGenerate (token : Option String) (s : GeneratePageState)
    (first second : Except AxiosError (List JSObject)) : GeneratePageState × List Effect :=
  let started1 := handleGenerateStart token s
  let started2 := handleGenerateStart token started1.1
  let settled2 := resumeGenerate started2.2.2 second started2.1
  let settled1 := resumeGenerate started1.2.2 first settled2.1
  (settled1.1, started1.2.1 ++ started2.2.1 ++ settled2.2 ++ settled1.2)

/-- A click on the generate button, `onClick={handleGenerate} disabled={generating}`:
a disabled button does not call its handler. -/
def clickGenerateBtn (token : Option String)
    (remote : AxiosConfig → Except AxiosError (List JSObject))
    (s : GeneratePageState) : GeneratePageState × List Effect :=
  if s.generating then (s, []) else handleGenerate token remote s

/-- A click on the export button, `onClick={handleExport} disabled={exporting}`;
the button is rendered only when `showExport && generatedQuestions.length > 0`. -/
def clickExportPdfBtn (token : Option String)
    (remote : AxiosConfig → Except AxiosError (List Nat)) (now : Nat)
    (s : GeneratePageState) : GeneratePageState × List Effect :=
  if s.showExport = true ∧ 0 < s.generatedQuestions.length then
    if s.exporting then (s, []) else handleExport token remote now s
  else (s, [])

/-- The toasts of a trace, of either kind, counted. -/
def toastCount : List Effect → Nat
  | [] => 0
  | Effect.toastError _ :: rest => toastCount rest + 1
  | Effect.toastSuccess _ :: rest => toastCount rest + 1
  | _ :: rest => toastCount rest

/-! ## The drop zone of `UploadPage` -/

/-- The `accept` option the page passes to `useDropzone`: MIME types with their
file name extensions. -/
def accept : List (String × List String) :=
  [("application/pdf", [".pdf"]),
   ("application/vnd.openxmlformats-officedocument.wordprocessingml.document", [".docx"]),
   ("text/plain", [".txt"]),
   ("application/epub+zip", [".epub"])]

/-- Modelled from the spec: the matching of a file against the allow-list is
done by the drop zone library, which is not under `src/`; files are "constrained
to a fixed allow-list by extension/MIME". A file matches when its MIME type is
one of the listed types or its name, in lower case, ends in one of the listed
extensions. -/
def fileAccepted (table : List (String × List String)) (file : File) : Bool :=
  table.any (fun entry =>
    decide (file.type = entry.1) ||
      entry.2.any (fun ext => ext.data.isSuffixOf (file.name.data.map Char.toLower)))

/-- Modelled from the spec: `useDropzone` is not under `src/`; "files outside the
allow-list are rejected locally before any remote call". The drop zone calls the
page's `onDrop` with the files of the selection that match `accept`, in the
order selected; the callback of the page takes that first argument only. -/
def dropFiles (token : Option String) (outcome : Nat → Except AxiosError JSObject)
    (selection : List File) (s : UploadPageState) : UploadPageState × List Effect :=
  onDrop token outcome (selection.filter (fileAccepted accept)) s

/-- The batch `[a.pdf, b.exe]`. -/
def mixedBatch : List File :=
  [⟨"a.pdf", "application/pdf", [37, 80, 68, 70]⟩,
   ⟨"b.exe", "application/x-msdownload", [77, 90]⟩]

/-- One question returned by a newer generation. -/
def newerQuestions : List JSObject :=
  [⟨[("id", JSValue.string "q3"), ("question_type", JSValue.string "Short Answer"),
     ("question", JSValue.string "Define osmosis."),
     ("answer", JSValue.string "Diffusion of water across a membrane")]⟩]

/-! ## The question type checkboxes -/

/-- The updater `toggleQuestionType(type)` hands to `setQuestionTypes`:
`prev.includes(type) ? prev.filter((t) => t !== type) : [...prev, type]`. -/
def toggledQuestionTypes (type : String) (prev : List String) : List String :=
  if prev.contains type then prev.filter (fun t => t ≠ type) else prev ++ [type]

/-- `toggleQuestionType(type)`: the state update of a tick on a checkbox. -/
def toggleQuestionType (type : String) (s : GeneratePageState) : GeneratePageState :=
  { s with questionTypes := toggledQuestionTypes type s.questionTypes }

/-! ## Facts about the handlers -/

theorem lookup_setEntry (key : String) (value : JSValue) (l : List (String × JSValue)) :
    (setEntry key value l).lookup key = some value := by
  induction l with
  | nil => simp [setEntry, List.lookup]
  | cons e rest ih =>
    obtain ⟨k, v⟩ := e
    by_cases hk : k = key
    · subst hk
      simp [setEntry, List.lookup]
    · have hne : (key == k) = false := by
        simp only [beq_eq_false_iff_ne, ne_eq]
        exact fun h => hk h.symm
      simp [setEntry, hk, List.lookup, hne, ih]

theorem JSObject.get_set (o : JSObject) (key : String) (value : JSValue) :
    (o.set key value).get key = value := by
  simp [JSObject.get, JSObject.set, lookup_setEntry]

theorem recordedItem_status (file : File) (result : Except AxiosError JSObject) :
    (recordedItem file result).get "status" = JSValue.string "success" ∨
    (recordedItem file result).get "status" = JSValue.string "error" := by
  cases result with
  | ok data => exact Or.inl (JSObject.get_set data "status" _)
  | error e => exact Or.inr (by simp [recordedItem, JSObject.get, List.lookup])

theorem uploadFile_eq (token : Option String) (file : File)
    (result : Except AxiosError JSObject) (s : UploadPageState) :
    (uploadFile token file result s).1 =
      { uploading := false, uploadedFiles := s.uploadedFiles ++ [recordedItem file result] } ∧
    requestsOf (uploadFile token file result s).2 = [ebooksAPI.upload token file] := by
  cases result <;> exact ⟨rfl, rfl⟩

theorem requestsOf_append (a b : List Effect) :
    requestsOf (a ++ b) = requestsOf a ++ requestsOf b := by
  induction a with
  | nil => rfl
  | cons e rest ih => cases e <;> simp [requestsOf, ih]

theorem onDropFrom_uploadedFiles (token : Option String)
    (outcome : Nat → Except AxiosError JSObject) (files : List File) :
    ∀ (i : Nat) (s : UploadPageState),
      (onDropFrom token outcome i files s).1.uploadedFiles =
        s.uploadedFiles ++ recordedItemsFrom outcome i files := by
  induction files with
  | nil => intro i s; simp [onDropFrom, recordedItemsFrom]
  | cons file rest ih =>
    intro i s
    simp only [onDropFrom, recordedItemsFrom, ih, (uploadFile_eq token file (outcome i) s).1]
    simp

theorem onDropFrom_requests (token : Option String)
    (outcome : Nat → Except AxiosError JSObject) (files : List File) :
    ∀ (i : Nat) (s : UploadPageState),
      requestsOf (onDropFrom token outcome i files s).2 = files.map (ebooksAPI.upload token) := by
  induction files with
  | nil => intro i s; rfl
  | cons file rest ih =>
    intro i s
    simp only [onDropFrom, requestsOf_append, ih, (uploadFile_eq token file (outcome i) s).2]
    simp

theorem recordedItemsFrom_length (outcome : Nat → Except AxiosError JSObject)
    (files : List File) : ∀ i : Nat, (recordedItemsFrom outcome i files).length = files.length := by
  induction files with
  | nil => intro i; rfl
  | cons file rest ih => intro i; simp [recordedItemsFrom, ih]

theorem recordedItemsFrom_getElem? (outcome : Nat → Except AxiosError JSObject)
    (files : List File) :
    ∀ (i j : Nat), (recordedItemsFrom outcome i files)[j]? =
      (files[j]?).map (fun file => recordedItem file (outcome (i + j))) := by
  induction files with
  | nil => intro i j; simp [recordedItemsFrom]
  | cons file rest ih =>
    intro i j
    cases j with
    | zero => simp [recordedItemsFrom]
    | succ j =>
      simp only [recordedItemsFrom, List.getElem?_cons_succ, ih]
      have : i + 1 + j = i + (j + 1) := by omega
      rw [this]

theorem recordedItemsFrom_status (outcome : Nat → Except AxiosError JSObject)
    (files : List File) :
    ∀ (i : Nat) (item : JSObject), item ∈ recordedItemsFrom outcome i files →
      item.get "status" = JSValue.string "success" ∨
      item.get "status" = JSValue.string "error" := by
  induction files with
  | nil => intro i item h; simp [recordedItemsFrom] at h
  | cons file rest ih =>
    intro i item h
    simp only [recordedItemsFrom, List.mem_cons] at h
    rcases h with h | h
    · rw [h]; exact recordedItem_status file (outcome i)
    · exact ih (i + 1) item h


theorem requestsOf_handleGenerateSettle (result : Except AxiosError (List JSObject))
    (s : GeneratePageState) : requestsOf (handleGenerateSettle result s).2 = [] := by
  cases result <;> rfl

theorem handleGenerate_of_valid (token : Option String)
    (remote : AxiosConfig → Except AxiosError (List JSObject)) (s : GeneratePageState)
    (hEbook : s.selectedEbook ≠ "") (hTypes : s.questionTypes ≠ []) :
    handleGenerate token remote s =
      ((handleGenerateSettle
          (remote (questionsAPI.generate token s.selectedEbook s.questionTypes s.difficulty
            s.numQuestions)) { s with generating := true }).1,
        Effect.request (questionsAPI.generate token s.selectedEbook s.questionTypes
            s.difficulty s.numQuestions) ::
          (handleGenerateSettle
            (remote (questionsAPI.generate token s.selectedEbook s.questionTypes s.difficulty
              s.numQuestions)) { s with generating := true }).2) := by
  have hlen : s.questionTypes.length ≠ 0 := by
    intro h
    exact hTypes (List.length_eq_zero.mp h)
  simp only [handleGenerate, if_neg hEbook, if_neg hlen]

theorem digitChar_decimal (k : Nat) (hk : k < 10) :
    (Nat.digitChar k).toNat - 48 = k ∧ (Nat.digitChar k).isDigit = true := by
  interval_cases k <;> decide

theorem toDigitsCore_foldl (fuel : Nat) :
    ∀ (n : Nat) (acc : List Char), n < fuel →
      (Nat.toDigitsCore 10 fuel n acc).foldl (fun a c => a * 10 + (c.toNat - 48)) 0 =
        acc.foldl (fun a c => a * 10 + (c.toNat - 48)) n := by
  induction fuel with
  | zero => intro n acc h; omega
  | succ fuel ih =>
    intro n acc h
    simp only [Nat.toDigitsCore]
    have hd := (digitChar_decimal (n % 10) (Nat.mod_lt n (by decide))).1
    split
    · rename_i h0
      simp only [List.foldl_cons, hd]
      have : n = n % 10 := by omega
      rw [Nat.zero_mul, Nat.zero_add, ← this]
    · rename_i h0
      rw [ih (n / 10) _ (by omega)]
      simp only [List.foldl_cons, hd]
      have : n / 10 * 10 + n % 10 = n := by omega
      rw [this]

theorem toDigitsCore_isDigit (fuel : Nat) :
    ∀ (n : Nat) (acc : List Char), (∀ c ∈ acc, c.isDigit = true) →
      ∀ c ∈ Nat.toDigitsCore 10 fuel n acc, c.isDigit = true := by
  induction fuel with
  | zero => intro n acc h; simpa [Nat.toDigitsCore] using h
  | succ fuel ih =>
    intro n acc h
    simp only [Nat.toDigitsCore]
    have hd := (digitChar_decimal (n % 10) (Nat.mod_lt n (by decide))).2
    have hcons : ∀ c ∈ Nat.digitChar (n % 10) :: acc, c.isDigit = true := by
      intro c hc
      rcases List.mem_cons.mp hc with rfl | hc
      · exact hd
      · exact h c hc
    split
    · exact hcons
    · exact ih (n / 10) _ hcons

theorem toDigitsCore_ne_nil (fuel : Nat) (n : Nat) (acc : List Char) (h : n < fuel) :
    Nat.toDigitsCore 10 fuel n acc ≠ [] := by
  induction fuel generalizing n acc with
  | zero => omega
  | succ fuel ih =>
    simp only [Nat.toDigitsCore]
    split
    · simp
    · exact ih (n / 10) _ (by omega)

theorem digitsValue_toDigits (n : Nat) : digitsValue (Nat.toDigits 10 n) = n := by
  unfold digitsValue Nat.toDigits
  rw [toDigitsCore_foldl (n + 1) n [] (by omega)]
  rfl

theorem toString_data (n : Nat) : (toString n).data = Nat.toDigits 10 n := rfl

theorem exportFilename_injective (a b : Nat) (h : exportFilename a = exportFilename b) :
    a = b := by
  have h1 := congrArg String.data h
  simp only [exportFilename, numberToString, String.data_append] at h1
  have h2 := List.append_cancel_left (List.append_cancel_right h1)
  have h3 := congrArg digitsValue h2
  rwa [toString_data, toString_data, digitsValue_toDigits, digitsValue_toDigits] at h3

theorem requestsOf_handleExportSettle (result : Except AxiosError (List Nat)) (now : Nat)
    (s : GeneratePageState) : requestsOf (handleExportSettle result now s).2 = [] := by
  cases result <;> rfl

theorem handleExport_of_valid (token : Option String)
    (remote : AxiosConfig → Except AxiosError (List Nat)) (now : Nat) (s : GeneratePageState)
    (hQuestions : s.generatedQuestions ≠ []) (hName : s.studentName ≠ "")
    (hRoll : s.rollNumber ≠ "") (hSubject : s.subject ≠ "") :
    handleExport token remote now s =
      ((handleExportSettle
          (remote (assignmentsAPI.generate token (s.generatedQuestions.map (fun q => q.get "id"))
            s.studentName s.rollNumber s.subject s.handwritingStyle s.penColor))
          now { s with exporting := true }).1,
        Effect.request (assignmentsAPI.generate token
            (s.generatedQuestions.map (fun q => q.get "id"))
            s.studentName s.rollNumber s.subject s.handwritingStyle s.penColor) ::
          (handleExportSettle
            (remote (assignmentsAPI.generate token
              (s.generatedQuestions.map (fun q => q.get "id"))
              s.studentName s.rollNumber s.subject s.handwritingStyle s.penColor))
            now { s with exporting := true }).2) := by
  have hlen : s.generatedQuestions.length ≠ 0 := by
    intro h
    exact hQuestions (List.length_eq_zero.mp h)
  have hfields : ¬ (s.studentName = "" ∨ s.rollNumber = "" ∨ s.subject = "") := by
    rintro (h | h | h)
    · exact hName h
    · exact hRoll h
    · exact hSubject h
  simp only [handleExport, if_neg hlen, if_neg hfields]

theorem handleExport_of_invalid (token : Option String)
    (remote : AxiosConfig → Except AxiosError (List Nat)) (now : Nat) (s : GeneratePageState)
    (hInvalid : ¬ (s.generatedQuestions ≠ [] ∧ s.studentName ≠ "" ∧ s.rollNumber ≠ "" ∧
      s.subject ≠ "")) :
    handleExport token remote now s =
      (s, [Effect.toastError (if s.generatedQuestions = [] then "No questions to export"
        else "Please fill in all assignment details")]) := by
  by_cases hQ : s.generatedQuestions = []
  · simp [handleExport, hQ]
  · have hlen : s.generatedQuestions.length ≠ 0 := by
      intro h
      exact hQ (List.length_eq_zero.mp h)
    have hfields : s.studentName = "" ∨ s.rollNumber = "" ∨ s.subject = "" := by
      by_contra hcon
      push_neg at hcon
      exact hInvalid ⟨hQ, hcon.1, hcon.2.1, hcon.2.2⟩
    simp only [handleExport, if_neg hlen, if_pos hfields, if_neg hQ]

theorem handleExport_of_success (token : Option String)
    (remote : AxiosConfig → Except AxiosError (List Nat)) (now : Nat) (s : GeneratePageState)
    (blob : List Nat)
    (hQuestions : s.generatedQuestions ≠ []) (hName : s.studentName ≠ "")
    (hRoll : s.rollNumber ≠ "") (hSubject : s.subject ≠ "")
    (hOk : remote (assignmentsAPI.generate token
      (s.generatedQuestions.map (fun q => q.get "id"))
      s.studentName s.rollNumber s.subject s.handwritingStyle s.penColor) = Except.ok blob) :
    handleExport token remote now s =
      ({ s with exporting := false },
        [Effect.request (assignmentsAPI.generate token
            (s.generatedQuestions.map (fun q => q.get "id"))
            s.studentName s.rollNumber s.subject s.handwritingStyle s.penColor),
         Effect.download (exportFilename now) blob,
         Effect.toastSuccess "Assignment PDF downloaded!"]) := by
  rw [handleExport_of_valid token remote now s hQuestions hName hRoll hSubject, hOk]
  rfl

/-! ## The generation handler -/

/-- C1: in a state with a selected e-book and at least one question type, one
run of `handleGenerate` sends exactly one request, the one `questionsAPI.generate`
builds, a POST to `/questions/generate` whose body carries `selectedEbook`,
`questionTypes`, `difficulty` and `numQuestions` unchanged. -/
theorem handleGenerate_sends_one_request (token : Option String)
    (remote : AxiosConfig → Except AxiosError (List JSObject)) (s : GeneratePageState)
    (hEbook : s.selectedEbook ≠ "") (hTypes : s.questionTypes ≠ []) :
    ∃ request : AxiosConfig,
      requestsOf (handleGenerate token remote s).2 = [request] ∧
      request = questionsAPI.generate token s.selectedEbook s.questionTypes s.difficulty
        s.numQuestions ∧
      request.method = "post" ∧ request.url = "/questions/generate" ∧
      request.data = RequestData.questions
        { ebook_id := s.selectedEbook, question_types := s.questionTypes,
          difficulty := s.difficulty, num_questions := s.numQuestions } := by
  refine ⟨_, ?_, rfl, ?_, ?_, ?_⟩
  · rw [handleGenerate_of_valid token remote s hEbook hTypes]
    simp only [requestsOf, requestsOf_handleGenerateSettle]
  all_goals
    unfold questionsAPI.generate api.post requestInterceptor
    cases token with
    | none => rfl
    | some t => by_cases ht : t = "" <;> simp [ht]

/-- Witness of C1 on a page with an e-book chosen and the type MCQ ticked. -/
theorem handleGenerate_sends_one_request_witness :
    configuredPage.selectedEbook ≠ "" ∧ configuredPage.questionTypes ≠ [] ∧
    ∃ request : AxiosConfig,
      requestsOf (handleGenerate (some "jwt") (fun _ => Except.ok sampleQuestions)
        configuredPage).2 = [request] ∧
      request = questionsAPI.generate (some "jwt") configuredPage.selectedEbook
        configuredPage.questionTypes configuredPage.difficulty configuredPage.numQuestions ∧
      request.method = "post" ∧ request.url = "/questions/generate" ∧
      request.data = RequestData.questions
        { ebook_id := configuredPage.selectedEbook,
          question_types := configuredPage.questionTypes,
          difficulty := configuredPage.difficulty,
          num_questions := configuredPage.numQuestions } :=
  ⟨by decide, by decide,
    handleGenerate_sends_one_request (some "jwt") (fun _ => Except.ok sampleQuestions)
      configuredPage (by decide) (by decide)⟩

/-- C2: when no e-book is selected or no question type is ticked, `handleGenerate`
sends no request, shows exactly one error toast, naming the e-book when it is
missing and the question types otherwise, and leaves the whole page state as it
was, in particular `generatedQuestions`, `showExport` and `generating`. -/
theorem handleGenerate_rejects_invalid (token : Option String)
    (remote : AxiosConfig → Except AxiosError (List JSObject)) (s : GeneratePageState)
    (hInvalid : s.selectedEbook = "" ∨ s.questionTypes = []) :
    requestsOf (handleGenerate token remote s).2 = [] ∧
    (handleGenerate token remote s).2 =
      [Effect.toastError (if s.selectedEbook = "" then "Please select an e-book"
        else "Please select at least one question type")] ∧
    (handleGenerate token remote s).1 = s ∧
    (handleGenerate token remote s).1.generatedQuestions = s.generatedQuestions ∧
    (handleGenerate token remote s).1.showExport = s.showExport ∧
    (handleGenerate token remote s).1.generating = s.generating := by
  by_cases hEbook : s.selectedEbook = ""
  · simp [handleGenerate, hEbook, requestsOf]
  · have hTypes : s.questionTypes = [] := hInvalid.resolve_left hEbook
    simp [handleGenerate, hEbook, hTypes, requestsOf]

/-- Witness of C2 on the freshly mounted page, where no e-book is selected. -/
theorem handleGenerate_rejects_invalid_witness :
    (GeneratePageState.initial.selectedEbook = "" ∨
      GeneratePageState.initial.questionTypes = []) ∧
    requestsOf (handleGenerate none (fun _ => Except.ok sampleQuestions)
      GeneratePageState.initial).2 = [] :=
  ⟨Or.inl rfl,
    (handleGenerate_rejects_invalid none (fun _ => Except.ok sampleQuestions)
      GeneratePageState.initial (Or.inl rfl)).1⟩

/-- C3: the count is sent unchecked. On a page with an e-book chosen and MCQ
ticked, clearing the number input stores NaN and typing 0, -3 or 25 stores that
number; in each case `handleGenerate` sends the generate request, carrying the
out-of-range count. -/
theorem handleGenerate_sends_unchecked_count :
    (onChangeNumQuestions "" configuredPage).numQuestions = JSNumber.nan ∧
    requestsOf (handleGenerate none (fun _ => Except.ok [])
        (onChangeNumQuestions "" configuredPage)).2 =
      [questionsAPI.generate none "ebook-1" ["MCQ"] "medium" JSNumber.nan] ∧
    requestsOf (handleGenerate none (fun _ => Except.ok [])
        (onChangeNumQuestions "0" configuredPage)).2 =
      [questionsAPI.generate none "ebook-1" ["MCQ"] "medium" (JSNumber.int 0)] ∧
    requestsOf (handleGenerate none (fun _ => Except.ok [])
        (onChangeNumQuestions "-3" configuredPage)).2 =
      [questionsAPI.generate none "ebook-1" ["MCQ"] "medium" (JSNumber.int (-3))] ∧
    requestsOf (handleGenerate none (fun _ => Except.ok [])
        (onChangeNumQuestions "25" configuredPage)).2 =
      [questionsAPI.generate none "ebook-1" ["MCQ"] "medium" (JSNumber.int 25)] := by
  decide

/-- C4: when the generate call fails, `generatedQuestions` and `showExport` after
`handleGenerate` are what they were before it, whatever the state and the error;
the same holds of the code after the `await` run on any state. -/
theorem handleGenerate_failure_keeps_result (token : Option String)
    (remote : AxiosConfig → Except AxiosError (List JSObject)) (s : GeneratePageState)
    (error : AxiosError)
    (hFail : remote (questionsAPI.generate token s.selectedEbook s.questionTypes s.difficulty
      s.numQuestions) = Except.error error) :
    (handleGenerate token remote s).1.generatedQuestions = s.generatedQuestions ∧
    (handleGenerate token remote s).1.showExport = s.showExport ∧
    ∀ live : GeneratePageState,
      (handleGenerateSettle (Except.error error) live).1.generatedQuestions =
        live.generatedQuestions ∧
      (handleGenerateSettle (Except.error error) live).1.showExport = live.showExport := by
  refine ⟨?_, ?_, fun live => ⟨rfl, rfl⟩⟩
  all_goals
    by_cases hEbook : s.selectedEbook = ""
    · simp [handleGenerate, hEbook]
    · by_cases hTypes : s.questionTypes = []
      · simp [handleGenerate, hEbook, hTypes]
      · rw [handleGenerate_of_valid token remote s hEbook hTypes, hFail]
        rfl

/-- Witness of C4: a rejected regeneration on a page that shows two questions. -/
theorem handleGenerate_failure_keeps_result_witness :
    (handleGenerate none (fun _ => Except.error ⟨some "Quota exceeded"⟩)
      generatedPage).1.generatedQuestions = sampleQuestions ∧
    (handleGenerate none (fun _ => Except.error ⟨some "Quota exceeded"⟩)
      generatedPage).1.showExport = true :=
  ⟨(handleGenerate_failure_keeps_result none (fun _ => Except.error ⟨some "Quota exceeded"⟩)
      generatedPage ⟨some "Quota exceeded"⟩ rfl).1,
    (handleGenerate_failure_keeps_result none (fun _ => Except.error ⟨some "Quota exceeded"⟩)
      generatedPage ⟨some "Quota exceeded"⟩ rfl).2.1⟩

/-- C5: when the generate call succeeds with the list `L`, `generatedQuestions`
after `handleGenerate` is `L` itself, whatever the page showed before; the same
holds of the code after the `await` run on any state. -/
theorem handleGenerate_success_replaces_result (token : Option String)
    (remote : AxiosConfig → Except AxiosError (List JSObject)) (s : GeneratePageState)
    (L : List JSObject)
    (hEbook : s.selectedEbook ≠ "") (hTypes : s.questionTypes ≠ [])
    (hOk : remote (questionsAPI.generate token s.selectedEbook s.questionTypes s.difficulty
      s.numQuestions) = Except.ok L) :
    (handleGenerate token remote s).1.generatedQuestions = L ∧
    ∀ live : GeneratePageState,
      (handleGenerateSettle (Except.ok L) live).1.generatedQuestions = L := by
  refine ⟨?_, fun live => rfl⟩
  rw [handleGenerate_of_valid token remote s hEbook hTypes, hOk]
  rfl

/-- Witness of C5: an empty response replaces the two questions shown before. -/
theorem handleGenerate_success_replaces_result_witness :
    generatedPage.generatedQuestions = sampleQuestions ∧
    (handleGenerate none (fun _ => Except.ok []) generatedPage).1.generatedQuestions = [] :=
  ⟨rfl,
    (handleGenerate_success_replaces_result none (fun _ => Except.ok []) generatedPage []
      (by decide) (by decide) rfl).1⟩

/-! ## The upload handlers -/

/-- C6: whatever the batch and the outcomes of the uploads, after `onDrop` the
list `uploadedFiles` is the previous list followed by one new item per file, in
batch order, the item at position `i` being the one recorded for the file at
position `i`; every new item has status `success` or `error`, and the earlier
items are still there, unchanged. -/
theorem onDrop_appends_one_item_per_file (token : Option String)
    (outcome : Nat → Except AxiosError JSObject) (files : List File) (s : UploadPageState) :
    ∃ added : List JSObject,
      (onDrop token outcome files s).1.uploadedFiles = s.uploadedFiles ++ added ∧
      added.length = files.length ∧
      (∀ i : Nat, added[i]? = (files[i]?).map (fun file => recordedItem file (outcome i))) ∧
      (∀ item ∈ added, item.get "status" = JSValue.string "success" ∨
        item.get "status" = JSValue.string "error") ∧
      (onDrop token outcome files s).1.uploadedFiles.take s.uploadedFiles.length =
        s.uploadedFiles := by
  refine ⟨recordedItemsFrom outcome 0 files, ?_, ?_, ?_, ?_, ?_⟩
  · exact onDropFrom_uploadedFiles token outcome files 0 s
  · exact recordedItemsFrom_length outcome files 0
  · intro i
    simpa using recordedItemsFrom_getElem? outcome files 0 i
  · exact recordedItemsFrom_status outcome files 0
  · unfold onDrop
    rw [onDropFrom_uploadedFiles token outcome files 0 s]
    simp

/-- C7: the item recorded for the file at position `i` depends on the outcome of
that file alone. Two runs of `onDrop` on the same batch whose outcomes agree at
`i` record the same item at the place of file `i`, namely the one `uploadFile`
records for that file and outcome, whatever happens to the other files; and in
both runs the upload requests sent are one per file of the batch, in order. -/
theorem onDrop_isolates_failures (token : Option String)
    (outcome₁ outcome₂ : Nat → Except AxiosError JSObject) (files : List File)
    (s : UploadPageState) (i : Nat) (file : File) (hFile : files[i]? = some file)
    (hAgree : outcome₁ i = outcome₂ i) :
    (onDrop token outcome₁ files s).1.uploadedFiles[s.uploadedFiles.length + i]? =
      some (recordedItem file (outcome₁ i)) ∧
    (onDrop token outcome₂ files s).1.uploadedFiles[s.uploadedFiles.length + i]? =
      (onDrop token outcome₁ files s).1.uploadedFiles[s.uploadedFiles.length + i]? ∧
    requestsOf (onDrop token outcome₁ files s).2 = files.map (ebooksAPI.upload token) ∧
    requestsOf (onDrop token outcome₂ files s).2 = files.map (ebooksAPI.upload token) := by
  have key : ∀ outcome : Nat → Except AxiosError JSObject,
      (onDrop token outcome files s).1.uploadedFiles[s.uploadedFiles.length + i]? =
        some (recordedItem file (outcome i)) := by
    intro outcome
    unfold onDrop
    rw [onDropFrom_uploadedFiles token outcome files 0 s,
      List.getElem?_append_right (Nat.le_add_right _ _), Nat.add_sub_cancel_left,
      recordedItemsFrom_getElem? outcome files 0 i, hFile]
    simp
  refine ⟨key outcome₁, ?_, onDropFrom_requests token outcome₁ files 0 s,
    onDropFrom_requests token outcome₂ files 0 s⟩
  rw [key outcome₁, key outcome₂, hAgree]

/-- Witness of C7: in a batch of three files the middle upload fails in one run
and the last one in the other; the first file is recorded alike in both. -/
theorem onDrop_isolates_failures_witness :
    (onDrop none (fun i => if i = 1 then Except.error ⟨none⟩ else Except.ok sampleEbook)
        sampleBatch ⟨false, []⟩).1.uploadedFiles[0]? =
      some (sampleEbook.set "status" (JSValue.string "success")) ∧
    (onDrop none (fun i => if i = 2 then Except.error ⟨none⟩ else Except.ok sampleEbook)
        sampleBatch ⟨false, []⟩).1.uploadedFiles[0]? =
      some (sampleEbook.set "status" (JSValue.string "success")) :=
  have h := onDrop_isolates_failures none
    (fun i => if i = 1 then Except.error ⟨none⟩ else Except.ok sampleEbook)
    (fun i => if i = 2 then Except.error ⟨none⟩ else Except.ok sampleEbook)
    sampleBatch ⟨false, []⟩ 0 ⟨"a.pdf", "application/pdf", [37, 80, 68, 70]⟩ rfl rfl
  ⟨h.1, h.2.1.trans h.1⟩

/-! ## The export handler -/

/-- C8: `handleExport` sends a request exactly when `generatedQuestions` is not
empty and `studentName`, `rollNumber` and `subject` are all non-empty. In that
case it sends the one request `assignmentsAPI.generate` builds; in every other
state it sends nothing, saves no file, shows one error toast (no questions, or
missing details) and leaves the page state as it was. -/
theorem handleExport_sends_iff_valid (token : Option String)
    (remote : AxiosConfig → Except AxiosError (List Nat)) (now : Nat) (s : GeneratePageState) :
    (requestsOf (handleExport token remote now s).2 ≠ [] ↔
      (s.generatedQuestions ≠ [] ∧ s.studentName ≠ "" ∧ s.rollNumber ≠ "" ∧
        s.subject ≠ "")) ∧
    (((s.generatedQuestions ≠ [] ∧ s.studentName ≠ "" ∧ s.rollNumber ≠ "" ∧
        s.subject ≠ "") ∧
      requestsOf (handleExport token remote now s).2 =
        [assignmentsAPI.generate token (s.generatedQuestions.map (fun q => q.get "id"))
          s.studentName s.rollNumber s.subject s.handwritingStyle s.penColor]) ∨
     (¬ (s.generatedQuestions ≠ [] ∧ s.studentName ≠ "" ∧ s.rollNumber ≠ "" ∧
        s.subject ≠ "") ∧
      requestsOf (handleExport token remote now s).2 = [] ∧
      downloadsOf (handleExport token remote now s).2 = [] ∧
      (handleExport token remote now s).2 =
        [Effect.toastError (if s.generatedQuestions = [] then "No questions to export"
          else "Please fill in all assignment details")] ∧
      (handleExport token remote now s).1 = s)) := by
  by_cases hValid : s.generatedQuestions ≠ [] ∧ s.studentName ≠ "" ∧ s.rollNumber ≠ "" ∧
      s.subject ≠ ""
  · have hreq : requestsOf (handleExport token remote now s).2 =
        [assignmentsAPI.generate token (s.generatedQuestions.map (fun q => q.get "id"))
          s.studentName s.rollNumber s.subject s.handwritingStyle s.penColor] := by
      rw [handleExport_of_valid token remote now s hValid.1 hValid.2.1 hValid.2.2.1
        hValid.2.2.2]
      simp only [requestsOf, requestsOf_handleExportSettle]
    refine ⟨⟨fun _ => hValid, fun _ => ?_⟩, Or.inl ⟨hValid, hreq⟩⟩
    rw [hreq]
    exact List.cons_ne_nil _ _
  · have heq := handleExport_of_invalid token remote now s hValid
    refine ⟨⟨fun h => ?_, fun h => absurd h hValid⟩, Or.inr ⟨hValid, ?_, ?_, ?_, ?_⟩⟩
    · rw [heq] at h
      exact absurd rfl h
    · rw [heq]; rfl
    · rw [heq]; rfl
    · rw [heq]
    · rw [heq]

/-- C9: when `handleExport` sends its request, the `question_ids` of the body are
the `id` of each of the current `generatedQuestions`, in the same order and of
the same number, so each id sent is the id of one of the current questions. -/
theorem handleExport_sends_current_ids (token : Option String)
    (remote : AxiosConfig → Except AxiosError (List Nat)) (now : Nat) (s : GeneratePageState)
    (hQuestions : s.generatedQuestions ≠ []) (hName : s.studentName ≠ "")
    (hRoll : s.rollNumber ≠ "") (hSubject : s.subject ≠ "") :
    ∃ (request : AxiosConfig) (body : AssignmentBody),
      requestsOf (handleExport token remote now s).2 = [request] ∧
      request.data = RequestData.assignment body ∧
      body.question_ids = s.generatedQuestions.map (fun q => q.get "id") ∧
      body.question_ids.length = s.generatedQuestions.length ∧
      (∀ i : Nat, body.question_ids[i]? = (s.generatedQuestions[i]?).map (fun q => q.get "id")) ∧
      ∀ id ∈ body.question_ids, ∃ q ∈ s.generatedQuestions, q.get "id" = id := by
  refine ⟨assignmentsAPI.generate token (s.generatedQuestions.map (fun q => q.get "id"))
      s.studentName s.rollNumber s.subject s.handwritingStyle s.penColor,
    { question_ids := s.generatedQuestions.map (fun q => q.get "id"),
      student_name := s.studentName, roll_number := s.rollNumber, subject := s.subject,
      handwriting_style := s.handwritingStyle, pen_color := s.penColor },
    ?_, ?_, rfl, ?_, ?_, ?_⟩
  · rw [handleExport_of_valid token remote now s hQuestions hName hRoll hSubject]
    simp only [requestsOf, requestsOf_handleExportSettle]
  · unfold assignmentsAPI.generate api.post requestInterceptor
    cases token with
    | none => rfl
    | some t => by_cases ht : t = "" <;> simp [ht]
  · simp
  · intro i
    simp
  · intro id hid
    simpa using hid

/-- Witness of C9 on a page with two questions and the details filled in. -/
theorem handleExport_sends_current_ids_witness :
    ∃ (request : AxiosConfig) (body : AssignmentBody),
      requestsOf (handleExport none (fun _ => Except.ok [37, 80, 68, 70]) 1700000000000
        exportReadyPage).2 = [request] ∧
      request.data = RequestData.assignment body ∧
      body.question_ids = [JSValue.string "q1", JSValue.string "q2"] :=
  match handleExport_sends_current_ids none (fun _ => Except.ok [37, 80, 68, 70])
      1700000000000 exportReadyPage (by decide) (by decide) (by decide) (by decide) with
  | ⟨request, body, h1, h2, h3, _⟩ => ⟨request, body, h1, h2, h3.trans (by decide)⟩

/-- C10: a successful export at timestamp `now` saves exactly one file, under the
name `assignment_` followed by the decimal digits of `now` followed by `.pdf`;
there is at least one digit, every one of them is a digit character, the name
depends on `now` alone and different timestamps give different names. -/
theorem handleExport_filename (token : Option String)
    (remote : AxiosConfig → Except AxiosError (List Nat)) (now : Nat) (s : GeneratePageState)
    (blob : List Nat)
    (hQuestions : s.generatedQuestions ≠ []) (hName : s.studentName ≠ "")
    (hRoll : s.rollNumber ≠ "") (hSubject : s.subject ≠ "")
    (hOk : remote (assignmentsAPI.generate token
      (s.generatedQuestions.map (fun q => q.get "id"))
      s.studentName s.rollNumber s.subject s.handwritingStyle s.penColor) = Except.ok blob) :
    downloadsOf (handleExport token remote now s).2 = [(exportFilename now, blob)] ∧
    exportFilename now = "assignment_" ++ String.mk (Nat.toDigits 10 now) ++ ".pdf" ∧
    Nat.toDigits 10 now ≠ [] ∧
    (∀ c ∈ Nat.toDigits 10 now, c.isDigit = true) ∧
    digitsValue (Nat.toDigits 10 now) = now ∧
    ∀ other : Nat, exportFilename other = exportFilename now ↔ other = now := by
  refine ⟨?_, rfl, ?_, ?_, digitsValue_toDigits now, fun other => ⟨?_, ?_⟩⟩
  · rw [handleExport_of_valid token remote now s hQuestions hName hRoll hSubject, hOk]
    rfl
  · exact toDigitsCore_ne_nil (now + 1) now [] (Nat.lt_succ_self now)
  · exact toDigitsCore_isDigit (now + 1) now [] (by simp)
  · exact exportFilename_injective other now
  · intro h
    rw [h]

/-- Witness of C10: an export at epoch millisecond 1700000000000. -/
theorem handleExport_filename_witness :
    downloadsOf (handleExport none (fun _ => Except.ok [37, 80, 68, 70]) 1700000000000
      exportReadyPage).2 = [("assignment_1700000000000.pdf", [37, 80, 68, 70])] :=
  (handleExport_filename none (fun _ => Except.ok [37, 80, 68, 70]) 1700000000000
    exportReadyPage [37, 80, 68, 70] (by decide) (by decide) (by decide) (by decide) rfl).1

theorem clickExportPdfBtn_of_request (token : Option String)
    (remote : AxiosConfig → Except AxiosError (List Nat)) (now : Nat) (s : GeneratePageState)
    (hCall : requestsOf (clickExportPdfBtn token remote now s).2 ≠ []) :
    s.exporting = false ∧
    (s.generatedQuestions ≠ [] ∧ s.studentName ≠ "" ∧ s.rollNumber ≠ "" ∧ s.subject ≠ "") ∧
    ∀ (other : AxiosConfig → Except AxiosError (List Nat)) (later : Nat),
      clickExportPdfBtn token other later s = handleExport token other later s := by
  by_cases hShown : s.showExport = true ∧ 0 < s.generatedQuestions.length
  · by_cases hBusy : s.exporting = true
    · simp [clickExportPdfBtn, hShown, hBusy, requestsOf] at hCall
    · have hIdle : s.exporting = false := by simpa using hBusy
      have hrun : ∀ (other : AxiosConfig → Except AxiosError (List Nat)) (later : Nat),
          clickExportPdfBtn token other later s = handleExport token other later s := by
        intro other later
        simp [clickExportPdfBtn, hShown, hIdle]
      refine ⟨hIdle, ?_, hrun⟩
      by_contra hInvalid
      rw [hrun remote now, handleExport_of_invalid token remote now s hInvalid] at hCall
      exact hCall rfl
  · simp [clickExportPdfBtn, hShown, requestsOf] at hCall

/-- C11: export is repeatable. When a click on the export button runs
`handleExport` (a request is sent, so the state passes the checks and the button
is enabled) and the call succeeds, the run sends the request, saves one file,
shows one success toast and leaves the page state exactly as it was before. A
second click whose call succeeds is again a run of `handleExport`: it sends the
same request, saves its own file and shows its own toast, and it does exactly
what it would have done had the first export not happened. -/
theorem handleExport_repeatable (token : Option String)
    (remote₁ remote₂ : AxiosConfig → Except AxiosError (List Nat)) (now₁ now₂ : Nat)
    (s : GeneratePageState) (blob₁ blob₂ : List Nat)
    (hCall : requestsOf (clickExportPdfBtn token remote₁ now₁ s).2 ≠ [])
    (hOk₁ : remote₁ (assignmentsAPI.generate token
      (s.generatedQuestions.map (fun q => q.get "id"))
      s.studentName s.rollNumber s.subject s.handwritingStyle s.penColor) = Except.ok blob₁)
    (hOk₂ : remote₂ (assignmentsAPI.generate token
      (s.generatedQuestions.map (fun q => q.get "id"))
      s.studentName s.rollNumber s.subject s.handwritingStyle s.penColor) = Except.ok blob₂) :
    (s.generatedQuestions ≠ [] ∧ s.studentName ≠ "" ∧ s.rollNumber ≠ "" ∧ s.subject ≠ "") ∧
    clickExportPdfBtn token remote₁ now₁ s = handleExport token remote₁ now₁ s ∧
    handleExport token remote₁ now₁ s =
      (s,
        [Effect.request (assignmentsAPI.generate token
            (s.generatedQuestions.map (fun q => q.get "id"))
            s.studentName s.rollNumber s.subject s.handwritingStyle s.penColor),
         Effect.download (exportFilename now₁) blob₁,
         Effect.toastSuccess "Assignment PDF downloaded!"]) ∧
    (handleExport token remote₁ now₁ s).1 = s ∧
    clickExportPdfBtn token remote₂ now₂ (handleExport token remote₁ now₁ s).1 =
      handleExport token remote₂ now₂ (handleExport token remote₁ now₁ s).1 ∧
    handleExport token remote₂ now₂ (handleExport token remote₁ now₁ s).1 =
      (s,
        [Effect.request (assignmentsAPI.generate token
            (s.generatedQuestions.map (fun q => q.get "id"))
            s.studentName s.rollNumber s.subject s.handwritingStyle s.penColor),
         Effect.download (exportFilename now₂) blob₂,
         Effect.toastSuccess "Assignment PDF downloaded!"]) ∧
    handleExport token remote₂ now₂ (handleExport token remote₁ now₁ s).1 =
      handleExport token remote₂ now₂ s := by
  obtain ⟨hIdle, hValid, hrun⟩ := clickExportPdfBtn_of_request token remote₁ now₁ s hCall
  have hsame : ({ s with exporting := false } : GeneratePageState) = s := by
    rw [← hIdle]
  have h1 : handleExport token remote₁ now₁ s =
      (s,
        [Effect.request (assignmentsAPI.generate token
            (s.generatedQuestions.map (fun q => q.get "id"))
            s.studentName s.rollNumber s.subject s.handwritingStyle s.penColor),
         Effect.download (exportFilename now₁) blob₁,
         Effect.toastSuccess "Assignment PDF downloaded!"]) := by
    rw [handleExport_of_success token remote₁ now₁ s blob₁ hValid.1 hValid.2.1 hValid.2.2.1
      hValid.2.2.2 hOk₁, hsame]
  have h2 : handleExport token remote₂ now₂ s =
      (s,
        [Effect.request (assignmentsAPI.generate token
            (s.generatedQuestions.map (fun q => q.get "id"))
            s.studentName s.rollNumber s.subject s.handwritingStyle s.penColor),
         Effect.download (exportFilename now₂) blob₂,
         Effect.toastSuccess "Assignment PDF downloaded!"]) := by
    rw [handleExport_of_success token remote₂ now₂ s blob₂ hValid.1 hValid.2.1 hValid.2.2.1
      hValid.2.2.2 hOk₂, hsame]
  have hstate : (handleExport token remote₁ now₁ s).1 = s := by
    rw [h1]
  refine ⟨hValid, hrun remote₁ now₁, h1, hstate, ?_, ?_, ?_⟩
  · rw [hstate]
    exact hrun remote₂ now₂
  · rw [hstate]
    exact h2
  · rw [hstate]

/-- Witness of C11: two clicks in a row on the export button of a page with two
questions and the details filled in. -/
theorem handleExport_repeatable_witness :
    (handleExport none (fun _ => Except.ok [37, 80, 68, 70]) 1700000000000
      exportReadyPage).1 = exportReadyPage ∧
    downloadsOf (handleExport none (fun _ => Except.ok [37, 80, 68, 71]) 1700000005000
      (handleExport none (fun _ => Except.ok [37, 80, 68, 70]) 1700000000000
        exportReadyPage).1).2 = [("assignment_1700000005000.pdf", [37, 80, 68, 71])] :=
  have h := handleExport_repeatable none (fun _ => Except.ok [37, 80, 68, 70])
    (fun _ => Except.ok [37, 80, 68, 71]) 1700000000000 1700000005000 exportReadyPage
    [37, 80, 68, 70] [37, 80, 68, 71] (by decide) rfl rfl
  ⟨h.2.2.2.1, by rw [h.2.2.2.2.2.1]; rfl⟩

/-! ## The request interceptor -/

/-- C12: for a non-empty token the interceptor returns the config with
`Authorization` set to `Bearer ` followed by the token and the other fields as
they were; for a missing or empty token it returns the config as it was. -/
theorem requestInterceptor_adds_bearer (config : AxiosConfig) (t : String) (ht : t ≠ "") :
    requestInterceptor (some t) config =
      { config with authorization := some ("Bearer " ++ t) } ∧
    (requestInterceptor (some t) config).authorization = some ("Bearer " ++ t) ∧
    (requestInterceptor (some t) config).method = config.method ∧
    (requestInterceptor (some t) config).url = config.url ∧
    (requestInterceptor (some t) config).data = config.data ∧
    (requestInterceptor (some t) config).responseType = config.responseType ∧
    requestInterceptor none config = config ∧
    requestInterceptor (some "") config = config := by
  simp [requestInterceptor, ht]

/-- Witness of C12 on the request of an upload. -/
theorem requestInterceptor_adds_bearer_witness :
    (requestInterceptor (some "jwt")
      ⟨"post", "/ebooks/upload", RequestData.empty, none, none⟩).authorization =
        some "Bearer jwt" :=
  (requestInterceptor_adds_bearer ⟨"post", "/ebooks/upload", RequestData.empty, none, none⟩
    "jwt" (by decide)).2.1

theorem handleGenerateStart_of_valid (token : Option String) (s : GeneratePageState)
    (hEbook : s.selectedEbook ≠ "") (hTypes : s.questionTypes ≠ []) :
    handleGenerateStart token s =
      ({ s with generating := true },
        [Effect.request (questionsAPI.generate token s.selectedEbook s.questionTypes
          s.difficulty s.numQuestions)],
        some (questionsAPI.generate token s.selectedEbook s.questionTypes s.difficulty
          s.numQuestions)) := by
  have hlen : s.questionTypes.length ≠ 0 := by
    intro h
    exact hTypes (List.length_eq_zero.mp h)
  simp only [handleGenerateStart, if_neg hEbook, if_neg hlen]

theorem handleGenerate_eq_start_then_settle (token : Option String)
    (remote : AxiosConfig → Except AxiosError (List JSObject)) (s : GeneratePageState) :
    handleGenerate token remote s =
      match handleGenerateStart token s with
      | (s₁, trace, some request) =>
        ((handleGenerateSettle (remote request) s₁).1,
          trace ++ (handleGenerateSettle (remote request) s₁).2)
      | (s₁, trace, none) => (s₁, trace) := by
  by_cases hEbook : s.selectedEbook = ""
  · simp [handleGenerate, handleGenerateStart, hEbook]
  · by_cases hlen : s.questionTypes.length = 0
    · simp [handleGenerate, handleGenerateStart, hEbook, hlen]
    · simp [handleGenerate, handleGenerateStart, hEbook, hlen]

theorem handleExport_eq_start_then_settle (token : Option String)
    (remote : AxiosConfig → Except AxiosError (List Nat)) (now : Nat) (s : GeneratePageState) :
    handleExport token remote now s =
      match handleExportStart token s with
      | (s₁, trace, some request) =>
        ((handleExportSettle (remote request) now s₁).1,
          trace ++ (handleExportSettle (remote request) now s₁).2)
      | (s₁, trace, none) => (s₁, trace) := by
  by_cases hlen : s.generatedQuestions.length = 0
  · simp [handleExport, handleExportStart, hlen]
  · by_cases hfields : s.studentName = "" ∨ s.rollNumber = "" ∨ s.subject = ""
    · simp only [handleExport, handleExportStart, if_neg hlen, if_pos hfields]
    · simp only [handleExport, handleExportStart, if_neg hlen, if_neg hfields]
      rfl

theorem uploadFile_eq_start_then_settle (token : Option String) (file : File)
    (result : Except AxiosError JSObject) (s : UploadPageState) :
    uploadFile token file result s =
      ((uploadFileSettle file result (uploadFileStart token file s).1).1,
        (uploadFileStart token file s).2 ++
          (uploadFileSettle file result (uploadFileStart token file s).1).2) := rfl

theorem interceptor_without_token (token : Option String)
    (hToken : token = none ∨ token = some "") (config : AxiosConfig) :
    requestInterceptor token config = config := by
  rcases hToken with h | h <;> subst h <;> simp [requestInterceptor]

/-! ## Requests without a credential -/

/-- Counterexample to C13 as stated: with no token in the store, an upload, a
generation and an export each send their request, and when the server answers
none of them reports an error. -/
theorem requests_sent_without_token_example :
    requestsOf (uploadFile none ⟨"a.pdf", "application/pdf", [37, 80, 68, 70]⟩
      (Except.ok sampleEbook) ⟨false, []⟩).2 ≠ [] ∧
    requestsOf (handleGenerate none (fun _ => Except.ok sampleQuestions)
      configuredPage).2 ≠ [] ∧
    requestsOf (handleExport none (fun _ => Except.ok [37, 80, 68, 70]) 1700000000000
      exportReadyPage).2 ≠ [] ∧
    errorsOf (uploadFile none ⟨"a.pdf", "application/pdf", [37, 80, 68, 70]⟩
      (Except.ok sampleEbook) ⟨false, []⟩).2 = [] ∧
    errorsOf (handleGenerate none (fun _ => Except.ok sampleQuestions)
      configuredPage).2 = [] ∧
    errorsOf (handleExport none (fun _ => Except.ok [37, 80, 68, 70]) 1700000000000
      exportReadyPage).2 = [] := by
  decide

/-- C13, amended: when the token is missing or empty, the upload, generate and
export requests are built without an `Authorization` header and are sent all
the same: `uploadFile` sends its request, and so do `handleGenerate` and
`handleExport` in every state that passes their own checks; the only errors in
the trace are those of the handler for the outcome the server gives: when the
call succeeds, none of the three reports an error. -/
theorem requests_sent_without_token (token : Option String)
    (hToken : token = none ∨ token = some "") :
    (∀ file : File, ebooksAPI.upload token file =
      ⟨"post", "/ebooks/upload", RequestData.formData file, none, none⟩) ∧
    (∀ (ebookId : String) (types : List String) (difficulty : String) (n : JSNumber),
      questionsAPI.generate token ebookId types difficulty n =
        ⟨"post", "/questions/generate",
          RequestData.questions ⟨ebookId, types, difficulty, n⟩, none, none⟩) ∧
    (∀ (ids : List JSValue) (name roll subject style color : String),
      assignmentsAPI.generate token ids name roll subject style color =
        ⟨"post", "/assignments/generate",
          RequestData.assignment ⟨ids, name, roll, subject, style, color⟩, some "blob",
          none⟩) ∧
    (∀ (file : File) (result : Except AxiosError JSObject) (s : UploadPageState),
      requestsOf (uploadFile token file result s).2 = [ebooksAPI.upload token file]) ∧
    (∀ (remote : AxiosConfig → Except AxiosError (List JSObject)) (s : GeneratePageState),
      s.selectedEbook ≠ "" → s.questionTypes ≠ [] →
      requestsOf (handleGenerate token remote s).2 =
        [questionsAPI.generate token s.selectedEbook s.questionTypes s.difficulty
          s.numQuestions]) ∧
    (∀ (remote : AxiosConfig → Except AxiosError (List Nat)) (now : Nat)
      (s : GeneratePageState),
      s.generatedQuestions ≠ [] → s.studentName ≠ "" → s.rollNumber ≠ "" →
      s.subject ≠ "" →
      requestsOf (handleExport token remote now s).2 =
        [assignmentsAPI.generate token (s.generatedQuestions.map (fun q => q.get "id"))
          s.studentName s.rollNumber s.subject s.handwritingStyle s.penColor]) ∧
    (∀ (file : File) (data : JSObject) (s : UploadPageState),
      errorsOf (uploadFile token file (Except.ok data) s).2 = []) ∧
    (∀ (remote : AxiosConfig → Except AxiosError (List JSObject)) (s : GeneratePageState)
      (L : List JSObject),
      s.selectedEbook ≠ "" → s.questionTypes ≠ [] →
      remote (questionsAPI.generate token s.selectedEbook s.questionTypes s.difficulty
        s.numQuestions) = Except.ok L →
      errorsOf (handleGenerate token remote s).2 = []) ∧
    (∀ (remote : AxiosConfig → Except AxiosError (List Nat)) (now : Nat)
      (s : GeneratePageState) (blob : List Nat),
      s.generatedQuestions ≠ [] → s.studentName ≠ "" → s.rollNumber ≠ "" →
      s.subject ≠ "" →
      remote (assignmentsAPI.generate token
        (s.generatedQuestions.map (fun q => q.get "id"))
        s.studentName s.rollNumber s.subject s.handwritingStyle s.penColor) =
          Except.ok blob →
      errorsOf (handleExport token remote now s).2 = []) := by
  refine ⟨?_, ?_, ?_, ?_, ?_, ?_, ?_, ?_, ?_⟩
  · intro file
    exact interceptor_without_token token hToken _
  · intro ebookId types difficulty n
    exact interceptor_without_token token hToken _
  · intro ids name roll subject style color
    exact interceptor_without_token token hToken _
  · intro file result s
    exact (uploadFile_eq token file result s).2
  · intro remote s hEbook hTypes
    rw [handleGenerate_of_valid token remote s hEbook hTypes]
    simp only [requestsOf, requestsOf_handleGenerateSettle]
  · intro remote now s hQ hName hRoll hSubject
    rw [handleExport_of_valid token remote now s hQ hName hRoll hSubject]
    simp only [requestsOf, requestsOf_handleExportSettle]
  · intro file data s
    rfl
  · intro remote s L hEbook hTypes hOk
    rw [handleGenerate_of_valid token remote s hEbook hTypes, hOk]
    rfl
  · intro remote now s blob hQ hName hRoll hSubject hOk
    rw [handleExport_of_success token remote now s blob hQ hName hRoll hSubject hOk]
    rfl

/-- Witness of C13 with no token in the store. -/
theorem requests_sent_without_token_witness :
    requestsOf (handleGenerate none (fun _ => Except.ok sampleQuestions) configuredPage).2 =
      [⟨"post", "/questions/generate",
        RequestData.questions ⟨"ebook-1", ["MCQ"], "medium", JSNumber.int 5⟩, none, none⟩] :=
  have h := requests_sent_without_token none (Or.inl rfl)
  (h.2.2.2.2.1 (fun _ => Except.ok sampleQuestions) configuredPage (by decide)
    (by decide)).trans (by decide)

theorem handleExportStart_of_valid (token : Option String) (s : GeneratePageState)
    (hQuestions : s.generatedQuestions ≠ []) (hName : s.studentName ≠ "")
    (hRoll : s.rollNumber ≠ "") (hSubject : s.subject ≠ "") :
    handleExportStart token s =
      ({ s with exporting := true },
        [Effect.request (assignmentsAPI.generate token
          (s.generatedQuestions.map (fun q => q.get "id"))
          s.studentName s.rollNumber s.subject s.handwritingStyle s.penColor)],
        some (assignmentsAPI.generate token
          (s.generatedQuestions.map (fun q => q.get "id"))
          s.studentName s.rollNumber s.subject s.handwritingStyle s.penColor)) := by
  have hlen : s.generatedQuestions.length ≠ 0 := by
    intro h
    exact hQuestions (List.length_eq_zero.mp h)
  have hfields : ¬ (s.studentName = "" ∨ s.rollNumber = "" ∨ s.subject = "") := by
    rintro (h | h | h)
    · exact hName h
    · exact hRoll h
    · exact hSubject h
  simp only [handleExportStart, if_neg hlen, if_neg hfields]

theorem overlappingGenerate_of_valid (token : Option String) (s : GeneratePageState)
    (first second : Except AxiosError (List JSObject))
    (hEbook : s.selectedEbook ≠ "") (hTypes : s.questionTypes ≠ []) :
    overlappingGenerate token s first second =
      ((handleGenerateSettle first
          (handleGenerateSettle second { s with generating := true }).1).1,
        [Effect.request (questionsAPI.generate token s.selectedEbook s.questionTypes
            s.difficulty s.numQuestions),
          Effect.request (questionsAPI.generate token s.selectedEbook s.questionTypes
            s.difficulty s.numQuestions)] ++
          (handleGenerateSettle second { s with generating := true }).2 ++
          (handleGenerateSettle first
            (handleGenerateSettle second { s with generating := true }).1).2) := by
  have h1 := handleGenerateStart_of_valid token s hEbook hTypes
  have h2 := handleGenerateStart_of_valid token { s with generating := true } hEbook hTypes
  simp only [overlappingGenerate, h1, h2, resumeGenerate]
  rfl

/-! ## Overlapping calls -/

/-- Counterexample to C14 as stated: T1 is sent, then T2; T2 resolves with one
question and T1 afterwards with two: the page ends up showing the two questions
of T1, not the result of T2. -/
theorem stale_response_overwrites_example :
    (overlappingGenerate none configuredPage (Except.ok sampleQuestions)
      (Except.ok newerQuestions)).1.generatedQuestions = sampleQuestions ∧
    (overlappingGenerate none configuredPage (Except.ok sampleQuestions)
      (Except.ok newerQuestions)).1.generatedQuestions ≠ newerQuestions := by
  decide

/-- C14, amended: `handleGenerate` carries no request token. When T1 is sent, a
newer call T2 is sent and resolves with `L₂`, and T1 resolves afterwards with
`L₁`, both requests were sent, the page showed `L₂` after T2 resolved, and after
both resolutions `generatedQuestions` is `L₁`, the result of the call that
resolved last. Only the generate button stands in the way of such an overlap:
in the state T1 leaves while it is pending, a click calls nothing. -/
theorem overlappingGenerate_last_response_wins (token : Option String)
    (remote : AxiosConfig → Except AxiosError (List JSObject))
    (s : GeneratePageState) (L₁ L₂ : List JSObject)
    (hEbook : s.selectedEbook ≠ "") (hTypes : s.questionTypes ≠ []) :
    clickGenerateBtn token remote (handleGenerateStart token s).1 =
      ((handleGenerateStart token s).1, []) ∧
    (overlappingGenerate token s (Except.ok L₁) (Except.ok L₂)).1.generatedQuestions = L₁ ∧
    (overlappingGenerate token s (Except.ok L₁) (Except.ok L₂)).1 =
      { s with generatedQuestions := L₁, showExport := true, generating := false } ∧
    requestsOf (overlappingGenerate token s (Except.ok L₁) (Except.ok L₂)).2 =
      [questionsAPI.generate token s.selectedEbook s.questionTypes s.difficulty
          s.numQuestions,
        questionsAPI.generate token s.selectedEbook s.questionTypes s.difficulty
          s.numQuestions] ∧
    (resumeGenerate (handleGenerateStart token (handleGenerateStart token s).1).2.2
      (Except.ok L₂)
      (handleGenerateStart token (handleGenerateStart token s).1).1).1.generatedQuestions =
        L₂ := by
  refine ⟨?_, ?_, ?_, ?_, ?_⟩
  · rw [handleGenerateStart_of_valid token s hEbook hTypes]
    simp [clickGenerateBtn]
  · rw [overlappingGenerate_of_valid token s _ _ hEbook hTypes]
    rfl
  · rw [overlappingGenerate_of_valid token s _ _ hEbook hTypes]
    rfl
  · rw [overlappingGenerate_of_valid token s _ _ hEbook hTypes]
    rfl
  · rw [handleGenerateStart_of_valid token s hEbook hTypes,
      handleGenerateStart_of_valid token { s with generating := true } hEbook hTypes]
    rfl

/-- Witness of C14 on a page with an e-book chosen. -/
theorem overlappingGenerate_last_response_wins_witness :
    (overlappingGenerate (some "jwt") configuredPage (Except.ok sampleQuestions)
      (Except.ok newerQuestions)).1.generatedQuestions = sampleQuestions :=
  (overlappingGenerate_last_response_wins (some "jwt") (fun _ => Except.ok newerQuestions)
    configuredPage sampleQuestions newerQuestions (by decide) (by decide)).2.1

/-- Counterexample to C15 as stated: on a page where a call is pending
(`generating` true), `handleGenerate` sends a second request and shows no error,
and when the earlier call resolves after the newer one its result is applied. -/
theorem handleGenerate_while_generating_example :
    requestsOf (handleGenerate none (fun _ => Except.ok newerQuestions)
      { configuredPage with generating := true }).2 =
        [questionsAPI.generate none "ebook-1" ["MCQ"] "medium" (JSNumber.int 5)] ∧
    errorsOf (handleGenerate none (fun _ => Except.ok newerQuestions)
      { configuredPage with generating := true }).2 = [] ∧
    (handleGenerateSettle (Except.ok sampleQuestions)
      (handleGenerate none (fun _ => Except.ok newerQuestions)
        { configuredPage with generating := true }).1).1.generatedQuestions =
        sampleQuestions := by
  decide

/-- C15, amended: while `generating` is true the generate button is disabled, so
a click calls nothing: no request, no toast, no state change. `handleGenerate`
itself does not read `generating`: run in such a state with a valid
configuration it sends one more request and shows no error before its `await`,
and the result of the earlier call is applied whenever that call resolves. -/
theorem generate_button_blocks_while_generating (token : Option String)
    (remote : AxiosConfig → Except AxiosError (List JSObject)) (s : GeneratePageState)
    (hBusy : s.generating = true) :
    clickGenerateBtn token remote s = (s, []) ∧
    (s.selectedEbook ≠ "" → s.questionTypes ≠ [] →
      requestsOf (handleGenerate token remote s).2 =
        [questionsAPI.generate token s.selectedEbook s.questionTypes s.difficulty
          s.numQuestions] ∧
      (handleGenerateStart token s).2.1 =
        [Effect.request (questionsAPI.generate token s.selectedEbook s.questionTypes
          s.difficulty s.numQuestions)]) ∧
    (∀ earlier : List JSObject,
      (handleGenerateSettle (Except.ok earlier)
        (handleGenerate token remote s).1).1.generatedQuestions = earlier) := by
  refine ⟨?_, ?_, fun earlier => rfl⟩
  · simp [clickGenerateBtn, hBusy]
  · intro hEbook hTypes
    constructor
    · rw [handleGenerate_of_valid token remote s hEbook hTypes]
      simp only [requestsOf, requestsOf_handleGenerateSettle]
    · rw [handleGenerateStart_of_valid token s hEbook hTypes]

/-- Witness of C15: a click while a generation is pending. -/
theorem generate_button_blocks_while_generating_witness :
    clickGenerateBtn none (fun _ => Except.ok newerQuestions)
      { configuredPage with generating := true } =
        ({ configuredPage with generating := true }, []) :=
  (generate_button_blocks_while_generating none (fun _ => Except.ok newerQuestions)
    { configuredPage with generating := true } rfl).1

/-- Counterexample to C16 as stated: on a page where an export is pending
(`exporting` true), `handleExport` sends a second export request and reports no
error. -/
theorem handleExport_while_exporting_example :
    requestsOf (handleExport none (fun _ => Except.ok [37, 80, 68, 70]) 1700000000000
      { exportReadyPage with exporting := true }).2 =
        [assignmentsAPI.generate none [JSValue.string "q1", JSValue.string "q2"]
          "Asha Rao" "A123" "Biology" "neat" "blue"] ∧
    errorsOf (handleExport none (fun _ => Except.ok [37, 80, 68, 70]) 1700000000000
      { exportReadyPage with exporting := true }).2 = [] := by
  decide

/-- C16, amended: while `exporting` is true the export button is disabled, so a
click calls nothing: no request, no toast, no state change. `handleExport`
itself does not read `exporting`: run in such a state that passes its checks it
sends one more export request and shows no error before its `await`. -/
theorem export_button_blocks_while_exporting (token : Option String)
    (remote : AxiosConfig → Except AxiosError (List Nat)) (now : Nat) (s : GeneratePageState)
    (hBusy : s.exporting = true) :
    clickExportPdfBtn token remote now s = (s, []) ∧
    (s.generatedQuestions ≠ [] → s.studentName ≠ "" → s.rollNumber ≠ "" →
      s.subject ≠ "" →
      requestsOf (handleExport token remote now s).2 =
        [assignmentsAPI.generate token (s.generatedQuestions.map (fun q => q.get "id"))
          s.studentName s.rollNumber s.subject s.handwritingStyle s.penColor] ∧
      (handleExportStart token s).2.1 =
        [Effect.request (assignmentsAPI.generate token
          (s.generatedQuestions.map (fun q => q.get "id"))
          s.studentName s.rollNumber s.subject s.handwritingStyle s.penColor)]) := by
  constructor
  · simp [clickExportPdfBtn, hBusy]
  · intro hQ hName hRoll hSubject
    constructor
    · rw [handleExport_of_valid token remote now s hQ hName hRoll hSubject]
      simp only [requestsOf, requestsOf_handleExportSettle]
    · rw [handleExportStart_of_valid token s hQ hName hRoll hSubject]

/-- Witness of C16: a click while an export is pending. -/
theorem export_button_blocks_while_exporting_witness :
    clickExportPdfBtn none (fun _ => Except.ok [37, 80, 68, 70]) 1700000000000
      { exportReadyPage with exporting := true } =
        ({ exportReadyPage with exporting := true }, []) :=
  (export_button_blocks_while_exporting none (fun _ => Except.ok [37, 80, 68, 70])
    1700000000000 { exportReadyPage with exporting := true } rfl).1

theorem ebooksAPI_upload_data (token : Option String) (file : File) :
    (ebooksAPI.upload token file).data = RequestData.formData file := by
  unfold ebooksAPI.upload api.post requestInterceptor
  cases token with
  | none => rfl
  | some t => by_cases ht : t = "" <;> simp [ht]

theorem onDropFrom_append (token : Option String)
    (outcome : Nat → Except AxiosError JSObject) (before after : List File) :
    ∀ (i : Nat) (s : UploadPageState),
      onDropFrom token outcome i (before ++ after) s =
        ((onDropFrom token outcome (i + before.length) after
            (onDropFrom token outcome i before s).1).1,
          (onDropFrom token outcome i before s).2 ++
            (onDropFrom token outcome (i + before.length) after
              (onDropFrom token outcome i before s).1).2) := by
  induction before with
  | nil => intro i s; simp [onDropFrom]
  | cons file rest ih =>
    intro i s
    have hidx : i + (rest.length + 1) = i + 1 + rest.length := by omega
    show onDropFrom token outcome i (file :: (rest ++ after)) s = _
    simp only [onDropFrom, List.length_cons, hidx, ih, List.append_assoc]

theorem toastCount_append (a b : List Effect) :
    toastCount (a ++ b) = toastCount a + toastCount b := by
  induction a with
  | nil => simp [toastCount]
  | cons e rest ih => cases e <;> simp [toastCount, ih] <;> omega

theorem toastCount_uploadFile (token : Option String) (file : File)
    (result : Except AxiosError JSObject) (s : UploadPageState) :
    toastCount (uploadFile token file result s).2 = 1 := by
  cases result <;> rfl

theorem toastCount_onDropFrom (token : Option String)
    (outcome : Nat → Except AxiosError JSObject) (files : List File) :
    ∀ (i : Nat) (s : UploadPageState),
      toastCount (onDropFrom token outcome i files s).2 = files.length := by
  induction files with
  | nil => intro i s; rfl
  | cons file rest ih =>
    intro i s
    simp only [onDropFrom, toastCount_append, toastCount_uploadFile, ih, List.length_cons]
    omega

/-! ## The drop zone and the order of uploads -/

/-- C17: whatever files are selected, the upload requests sent are those of the
files that match the allow-list (`accept`), one each and in the order selected;
a request always belongs to a selected file that matches, and a file that does
not match never has its upload request sent. -/
theorem dropFiles_uploads_only_accepted (token : Option String)
    (outcome : Nat → Except AxiosError JSObject) (selection : List File)
    (s : UploadPageState) :
    requestsOf (dropFiles token outcome selection s).2 =
      (selection.filter (fileAccepted accept)).map (ebooksAPI.upload token) ∧
    (∀ request ∈ requestsOf (dropFiles token outcome selection s).2,
      ∃ file ∈ selection, fileAccepted accept file = true ∧
        request = ebooksAPI.upload token file) ∧
    (∀ file : File, fileAccepted accept file = false →
      ebooksAPI.upload token file ∉ requestsOf (dropFiles token outcome selection s).2) := by
  have hreq : requestsOf (dropFiles token outcome selection s).2 =
      (selection.filter (fileAccepted accept)).map (ebooksAPI.upload token) :=
    onDropFrom_requests token outcome _ 0 s
  refine ⟨hreq, ?_, ?_⟩
  · intro request hmem
    rw [hreq] at hmem
    obtain ⟨file, hfile, rfl⟩ := List.mem_map.mp hmem
    obtain ⟨hsel, hacc⟩ := List.mem_filter.mp hfile
    exact ⟨file, hsel, hacc, rfl⟩
  · intro file hrej hmem
    rw [hreq] at hmem
    obtain ⟨other, hother, heq⟩ := List.mem_map.mp hmem
    have hdata := congrArg AxiosConfig.data heq
    rw [ebooksAPI_upload_data, ebooksAPI_upload_data] at hdata
    have hsame : other = file := by
      injection hdata
    rw [hsame] at hother
    have hacc := (List.mem_filter.mp hother).2
    rw [hrej] at hacc
    exact Bool.noConfusion hacc

/-- Counterexample to C18 as stated: after the batch `[a.pdf, b.exe]` the list
holds one item, the one of `a.pdf`; there is no item for `b.exe` and none with an
error status. -/
theorem dropFiles_no_item_for_rejected_example :
    (dropFiles none (fun _ => Except.ok sampleEbook) mixedBatch ⟨false, []⟩).1.uploadedFiles =
      [sampleEbook.set "status" (JSValue.string "success")] ∧
    ¬ (∃ item ∈ (dropFiles none (fun _ => Except.ok sampleEbook) mixedBatch
        ⟨false, []⟩).1.uploadedFiles,
      item.get "name" = JSValue.string "b.exe" ∨
        item.get "status" = JSValue.string "error") := by
  decide

/-- C18, amended: after a selection is dropped, the list is the previous list
followed by one item per file that matches the allow-list, in order; a file
outside the allow-list gets no item (and no request), so the number of new items
is the number of matching files. -/
theorem dropFiles_records_only_accepted (token : Option String)
    (outcome : Nat → Except AxiosError JSObject) (selection : List File)
    (s : UploadPageState) :
    (dropFiles token outcome selection s).1.uploadedFiles =
      s.uploadedFiles ++
        recordedItemsFrom outcome 0 (selection.filter (fileAccepted accept)) ∧
    (dropFiles token outcome selection s).1.uploadedFiles.length =
      s.uploadedFiles.length + (selection.filter (fileAccepted accept)).length ∧
    (∀ i : Nat,
      (dropFiles token outcome selection s).1.uploadedFiles[s.uploadedFiles.length + i]? =
        ((selection.filter (fileAccepted accept))[i]?).map
          (fun file => recordedItem file (outcome i))) ∧
    requestsOf (dropFiles token outcome selection s).2 =
      (selection.filter (fileAccepted accept)).map (ebooksAPI.upload token) := by
  have hfiles : (dropFiles token outcome selection s).1.uploadedFiles =
      s.uploadedFiles ++
        recordedItemsFrom outcome 0 (selection.filter (fileAccepted accept)) :=
    onDropFrom_uploadedFiles token outcome _ 0 s
  refine ⟨hfiles, ?_, ?_, onDropFrom_requests token outcome _ 0 s⟩
  · rw [hfiles, List.length_append, recordedItemsFrom_length]
  · intro i
    rw [hfiles, List.getElem?_append_right (Nat.le_add_right _ _), Nat.add_sub_cancel_left,
      recordedItemsFrom_getElem?]
    simp

/-- Counterexample to C19 as stated: while the upload call of `a.pdf` is in
flight the list is still empty, so it holds no item with status `pending` before
the call nor one with status `uploading` during it; the item appears once the
call has settled, already with its final status. -/
theorem no_item_while_uploading_example :
    (uploadFileStart none ⟨"a.pdf", "application/pdf", [37, 80, 68, 70]⟩
      ⟨false, []⟩).1.uploadedFiles = [] ∧
    ¬ (∃ item ∈ (uploadFileStart none ⟨"a.pdf", "application/pdf", [37, 80, 68, 70]⟩
        ⟨false, []⟩).1.uploadedFiles,
      item.get "status" = JSValue.string "pending" ∨
        item.get "status" = JSValue.string "uploading") ∧
    (uploadFile none ⟨"a.pdf", "application/pdf", [37, 80, 68, 70]⟩ (Except.ok sampleEbook)
      ⟨false, []⟩).1.uploadedFiles = [sampleEbook.set "status" (JSValue.string "success")] := by
  decide

/-- C19, amended: `uploadFile` keeps no item for a file before or during its
upload call: up to the `await` the list is unchanged and only the page-wide flag
`uploading` is set; when the call settles one item is appended, directly with
status `success` or `error`, and the flag is cleared. -/
theorem uploadFile_item_only_after_settle (token : Option String) (file : File)
    (result : Except AxiosError JSObject) (s : UploadPageState) :
    (uploadFileStart token file s).1.uploadedFiles = s.uploadedFiles ∧
    (uploadFileStart token file s).1.uploading = true ∧
    (uploadFileStart token file s).2 = [Effect.request (ebooksAPI.upload token file)] ∧
    uploadFile token file result s =
      ((uploadFileSettle file result (uploadFileStart token file s).1).1,
        (uploadFileStart token file s).2 ++
          (uploadFileSettle file result (uploadFileStart token file s).1).2) ∧
    (uploadFile token file result s).1.uploadedFiles =
      s.uploadedFiles ++ [recordedItem file result] ∧
    (uploadFile token file result s).1.uploading = false ∧
    ((recordedItem file result).get "status" = JSValue.string "success" ∨
      (recordedItem file result).get "status" = JSValue.string "error") := by
  refine ⟨rfl, rfl, rfl, rfl, ?_, ?_, recordedItem_status file result⟩
  · rw [(uploadFile_eq token file result s).1]
  · rw [(uploadFile_eq token file result s).1]

/-- Counterexample to C20 as stated: for a batch of two files the trace of
`onDrop` is the request of the first file, the toast shown once that upload has
settled, and only then the request of the second file and its toast. -/
theorem onDrop_runs_in_sequence_example :
    (onDrop none (fun _ => Except.ok sampleEbook)
      [⟨"a.pdf", "application/pdf", [37, 80, 68, 70]⟩, ⟨"b.txt", "text/plain", [104, 105]⟩]
      ⟨false, []⟩).2 =
      [Effect.request (ebooksAPI.upload none ⟨"a.pdf", "application/pdf", [37, 80, 68, 70]⟩),
       Effect.toastSuccess "a.pdf uploaded successfully!",
       Effect.request (ebooksAPI.upload none ⟨"b.txt", "text/plain", [104, 105]⟩),
       Effect.toastSuccess "b.txt uploaded successfully!"] := by
  decide

/-- C20, amended: the files of a batch are uploaded one after the other, in
batch order. The request of a file is sent only after the whole run of `onDrop`
on the files before it: all their requests were sent, each of them has settled
(one toast each) and their items are in the list; the upload of the file then
starts from that state. -/
theorem onDrop_awaits_each_upload (token : Option String)
    (outcome : Nat → Except AxiosError JSObject) (before : List File) (file : File)
    (after : List File) (s : UploadPageState) :
    (onDrop token outcome (before ++ file :: after) s).2 =
      (onDrop token outcome before s).2 ++
        (uploadFile token file (outcome before.length) (onDrop token outcome before s).1).2 ++
        (onDropFrom token outcome (before.length + 1) after
          (uploadFile token file (outcome before.length)
            (onDrop token outcome before s).1).1).2 ∧
    (∃ later : List Effect,
      (onDrop token outcome (before ++ file :: after) s).2 =
        (onDrop token outcome before s).2 ++
          Effect.request (ebooksAPI.upload token file) :: later) ∧
    requestsOf (onDrop token outcome before s).2 = before.map (ebooksAPI.upload token) ∧
    toastCount (onDrop token outcome before s).2 = before.length ∧
    (onDrop token outcome before s).1.uploadedFiles =
      s.uploadedFiles ++ recordedItemsFrom outcome 0 before := by
  have htrace : (onDrop token outcome (before ++ file :: after) s).2 =
      (onDrop token outcome before s).2 ++
        (uploadFile token file (outcome before.length) (onDrop token outcome before s).1).2 ++
        (onDropFrom token outcome (before.length + 1) after
          (uploadFile token file (outcome before.length)
            (onDrop token outcome before s).1).1).2 := by
    unfold onDrop
    rw [onDropFrom_append]
    simp only [onDropFrom, Nat.zero_add, List.append_assoc]
  have hlater : ∃ later : List Effect,
      (onDrop token outcome (before ++ file :: after) s).2 =
        (onDrop token outcome before s).2 ++
          Effect.request (ebooksAPI.upload token file) :: later := by
    rw [htrace, List.append_assoc]
    exact ⟨_, rfl⟩
  exact ⟨htrace, hlater, onDropFrom_requests token outcome before 0 s,
    toastCount_onDropFrom token outcome before 0 s,
    onDropFrom_uploadedFiles token outcome before 0 s⟩

theorem handleGenerate_of_failure (token : Option String)
    (remote : AxiosConfig → Except AxiosError (List JSObject)) (s : GeneratePageState)
    (error : AxiosError)
    (hEbook : s.selectedEbook ≠ "") (hTypes : s.questionTypes ≠ [])
    (hFail : remote (questionsAPI.generate token s.selectedEbook s.questionTypes s.difficulty
      s.numQuestions) = Except.error error) :
    handleGenerate token remote s =
      ({ s with generating := false },
        [Effect.request (questionsAPI.generate token s.selectedEbook s.questionTypes
            s.difficulty s.numQuestions),
         Effect.toastError (generateErrorMessage error)]) := by
  rw [handleGenerate_of_valid token remote s hEbook hTypes, hFail]
  rfl

theorem handleExport_of_failure (token : Option String)
    (remote : AxiosConfig → Except AxiosError (List Nat)) (now : Nat) (s : GeneratePageState)
    (error : AxiosError)
    (hQuestions : s.generatedQuestions ≠ []) (hName : s.studentName ≠ "")
    (hRoll : s.rollNumber ≠ "") (hSubject : s.subject ≠ "")
    (hFail : remote (assignmentsAPI.generate token
      (s.generatedQuestions.map (fun q => q.get "id"))
      s.studentName s.rollNumber s.subject s.handwritingStyle s.penColor) =
        Except.error error) :
    handleExport token remote now s =
      ({ s with exporting := false },
        [Effect.request (assignmentsAPI.generate token
            (s.generatedQuestions.map (fun q => q.get "id"))
            s.studentName s.rollNumber s.subject s.handwritingStyle s.penColor),
         Effect.toastError "Failed to generate PDF"]) := by
  rw [handleExport_of_valid token remote now s hQuestions hName hRoll hSubject, hFail]
  rfl

theorem requestsOf_handleGenerate_le_one (token : Option String)
    (remote : AxiosConfig → Except AxiosError (List JSObject)) (s : GeneratePageState) :
    (requestsOf (handleGenerate token remote s).2).length ≤ 1 := by
  by_cases hEbook : s.selectedEbook = ""
  · simp [handleGenerate, hEbook, requestsOf]
  · by_cases hTypes : s.questionTypes = []
    · simp [handleGenerate, hEbook, hTypes, requestsOf]
    · rw [handleGenerate_of_valid token remote s hEbook hTypes]
      simp [requestsOf, requestsOf_handleGenerateSettle]

theorem requestsOf_handleExport_le_one (token : Option String)
    (remote : AxiosConfig → Except AxiosError (List Nat)) (now : Nat) (s : GeneratePageState) :
    (requestsOf (handleExport token remote now s).2).length ≤ 1 := by
  by_cases hValid : s.generatedQuestions ≠ [] ∧ s.studentName ≠ "" ∧ s.rollNumber ≠ "" ∧
      s.subject ≠ ""
  · rw [handleExport_of_valid token remote now s hValid.1 hValid.2.1 hValid.2.2.1
      hValid.2.2.2]
    simp [requestsOf, requestsOf_handleExportSettle]
  · rw [handleExport_of_invalid token remote now s hValid]
    simp [requestsOf]

/-! ## Error reporting -/

/-- Counterexample to C21 as stated: the server declines an export and an upload
with the message `Quota exceeded`; the export reports `Failed to generate PDF`
and the upload `Failed to upload a.pdf`, not the message of the server. -/
theorem server_message_not_passed_example :
    errorsOf (handleExport none (fun _ => Except.error ⟨some "Quota exceeded"⟩)
      1700000000000 exportReadyPage).2 = ["Failed to generate PDF"] ∧
    errorsOf (uploadFile none ⟨"a.pdf", "application/pdf", [37, 80, 68, 70]⟩
      (Except.error ⟨some "Quota exceeded"⟩) ⟨false, []⟩).2 = ["Failed to upload a.pdf"] ∧
    "Failed to generate PDF" ≠ "Quota exceeded" ∧
    "Failed to upload a.pdf" ≠ "Quota exceeded" := by
  decide

/-- C21, amended: when the server declines with a non-empty reason message `m`,
`handleGenerate` reports `m` itself; `handleExport` reports the fixed message
`Failed to generate PDF` and `uploadFile` reports `Failed to upload ` followed
by the name of the file, whatever `m` is. -/
theorem declined_request_messages (token : Option String) (m : String) (hm : m ≠ "") :
    (∀ (remote : AxiosConfig → Except AxiosError (List JSObject)) (s : GeneratePageState),
      s.selectedEbook ≠ "" → s.questionTypes ≠ [] →
      remote (questionsAPI.generate token s.selectedEbook s.questionTypes s.difficulty
        s.numQuestions) = Except.error ⟨some m⟩ →
      errorsOf (handleGenerate token remote s).2 = [m]) ∧
    (∀ (remote : AxiosConfig → Except AxiosError (List Nat)) (now : Nat)
      (s : GeneratePageState),
      s.generatedQuestions ≠ [] → s.studentName ≠ "" → s.rollNumber ≠ "" →
      s.subject ≠ "" →
      remote (assignmentsAPI.generate token
        (s.generatedQuestions.map (fun q => q.get "id"))
        s.studentName s.rollNumber s.subject s.handwritingStyle s.penColor) =
          Except.error ⟨some m⟩ →
      errorsOf (handleExport token remote now s).2 = ["Failed to generate PDF"]) ∧
    (∀ (file : File) (s : UploadPageState),
      errorsOf (uploadFile token file (Except.error ⟨some m⟩) s).2 =
        ["Failed to upload " ++ file.name]) := by
  refine ⟨?_, ?_, ?_⟩
  · intro remote s hEbook hTypes hFail
    rw [handleGenerate_of_failure token remote s ⟨some m⟩ hEbook hTypes hFail]
    simp [errorsOf, generateErrorMessage, hm]
  · intro remote now s hQ hName hRoll hSubject hFail
    rw [handleExport_of_failure token remote now s ⟨some m⟩ hQ hName hRoll hSubject hFail]
    rfl
  · intro file s
    rfl

/-- Witness of C21: a generation declined with `Quota exceeded`. -/
theorem declined_request_messages_witness :
    errorsOf (handleGenerate none (fun _ => Except.error ⟨some "Quota exceeded"⟩)
      configuredPage).2 = ["Quota exceeded"] :=
  (declined_request_messages none "Quota exceeded" (by decide)).1
    (fun _ => Except.error ⟨some "Quota exceeded"⟩) configuredPage (by decide) (by decide) rfl

/-- C22: a failed remote call is reported once and never retried. For each of
`uploadFile`, `handleGenerate` and `handleExport`, when the call fails the trace
holds exactly one error toast and exactly one request; and in every run, whatever
the state and the outcome, the handler sends at most one request. -/
theorem failed_call_reported_once_no_retry (token : Option String) (error : AxiosError) :
    (∀ (file : File) (s : UploadPageState),
      (errorsOf (uploadFile token file (Except.error error) s).2).length = 1 ∧
      requestsOf (uploadFile token file (Except.error error) s).2 =
        [ebooksAPI.upload token file]) ∧
    (∀ (remote : AxiosConfig → Except AxiosError (List JSObject)) (s : GeneratePageState),
      s.selectedEbook ≠ "" → s.questionTypes ≠ [] →
      remote (questionsAPI.generate token s.selectedEbook s.questionTypes s.difficulty
        s.numQuestions) = Except.error error →
      errorsOf (handleGenerate token remote s).2 = [generateErrorMessage error] ∧
      requestsOf (handleGenerate token remote s).2 =
        [questionsAPI.generate token s.selectedEbook s.questionTypes s.difficulty
          s.numQuestions]) ∧
    (∀ (remote : AxiosConfig → Except AxiosError (List Nat)) (now : Nat)
      (s : GeneratePageState),
      s.generatedQuestions ≠ [] → s.studentName ≠ "" → s.rollNumber ≠ "" →
      s.subject ≠ "" →
      remote (assignmentsAPI.generate token
        (s.generatedQuestions.map (fun q => q.get "id"))
        s.studentName s.rollNumber s.subject s.handwritingStyle s.penColor) =
          Except.error error →
      errorsOf (handleExport token remote now s).2 = ["Failed to generate PDF"] ∧
      requestsOf (handleExport token remote now s).2 =
        [assignmentsAPI.generate token (s.generatedQuestions.map (fun q => q.get "id"))
          s.studentName s.rollNumber s.subject s.handwritingStyle s.penColor]) ∧
    (∀ (file : File) (result : Except AxiosError JSObject) (s : UploadPageState),
      (requestsOf (uploadFile token file result s).2).length = 1) ∧
    (∀ (remote : AxiosConfig → Except AxiosError (List JSObject)) (s : GeneratePageState),
      (requestsOf (handleGenerate token remote s).2).length ≤ 1) ∧
    (∀ (remote : AxiosConfig → Except AxiosError (List Nat)) (now : Nat)
      (s : GeneratePageState),
      (requestsOf (handleExport token remote now s).2).length ≤ 1) := by
  refine ⟨?_, ?_, ?_, ?_, ?_, ?_⟩
  · intro file s
    exact ⟨rfl, rfl⟩
  · intro remote s hEbook hTypes hFail
    rw [handleGenerate_of_failure token remote s error hEbook hTypes hFail]
    exact ⟨rfl, rfl⟩
  · intro remote now s hQ hName hRoll hSubject hFail
    rw [handleExport_of_failure token remote now s error hQ hName hRoll hSubject hFail]
    exact ⟨rfl, rfl⟩
  · intro file result s
    rw [(uploadFile_eq token file result s).2]
    rfl
  · exact requestsOf_handleGenerate_le_one token
  · exact requestsOf_handleExport_le_one token

/-- Witness of C22: a generation and an export that fail without a message. -/
theorem failed_call_reported_once_no_retry_witness :
    errorsOf (handleGenerate none (fun _ => Except.error ⟨none⟩) configuredPage).2 =
      ["Failed to generate questions"] ∧
    errorsOf (handleExport none (fun _ => Except.error ⟨none⟩) 1700000000000
      exportReadyPage).2 = ["Failed to generate PDF"] :=
  have h := failed_call_reported_once_no_retry none ⟨none⟩
  ⟨(h.2.1 (fun _ => Except.error ⟨none⟩) configuredPage (by decide) (by decide) rfl).1,
    (h.2.2.1 (fun _ => Except.error ⟨none⟩) 1700000000000 exportReadyPage (by decide)
      (by decide) (by decide) (by decide) rfl).1⟩

/-! ## The export request and its frame -/

/-- C23: `assignmentsAPI.generate` posts to `/assignments/generate` a body whose
six fields are its six arguments, in their places, and asks for the response as
a blob. -/
theorem assignmentsAPI_generate_request (token : Option String) (questionIds : List JSValue)
    (studentName rollNumber subject handwritingStyle penColor : String) :
    (assignmentsAPI.generate token questionIds studentName rollNumber subject
      handwritingStyle penColor).method = "post" ∧
    (assignmentsAPI.generate token questionIds studentName rollNumber subject
      handwritingStyle penColor).url = "/assignments/generate" ∧
    (assignmentsAPI.generate token questionIds studentName rollNumber subject
      handwritingStyle penColor).responseType = some "blob" ∧
    ∃ body : AssignmentBody,
      (assignmentsAPI.generate token questionIds studentName rollNumber subject
        handwritingStyle penColor).data = RequestData.assignment body ∧
      body.question_ids = questionIds ∧ body.student_name = studentName ∧
      body.roll_number = rollNumber ∧ body.subject = subject ∧
      body.handwriting_style = handwritingStyle ∧ body.pen_color = penColor := by
  have hshape : ∀ config : AxiosConfig,
      (requestInterceptor token config).method = config.method ∧
      (requestInterceptor token config).url = config.url ∧
      (requestInterceptor token config).responseType = config.responseType ∧
      (requestInterceptor token config).data = config.data := by
    intro config
    unfold requestInterceptor
    cases token with
    | none => exact ⟨rfl, rfl, rfl, rfl⟩
    | some t => by_cases ht : t = "" <;> simp [ht]
  unfold assignmentsAPI.generate api.post
  refine ⟨(hshape _).1, (hshape _).2.1, (hshape _).2.2.1, ⟨_, (hshape _).2.2.2, ?_⟩⟩
  exact ⟨rfl, rfl, rfl, rfl, rfl, rfl⟩

/-- C24: `handleExport` leaves the generation stage alone. After a run, whether
it stopped at a check, failed remotely or succeeded, `generatedQuestions`,
`showExport`, `selectedEbook`, `questionTypes`, `difficulty` and `numQuestions`
are what they were; the same holds of the code after the `await` on any state. -/
theorem handleExport_keeps_generation_stage (token : Option String)
    (remote : AxiosConfig → Except AxiosError (List Nat)) (now : Nat) (s : GeneratePageState) :
    ((handleExport token remote now s).1.generatedQuestions = s.generatedQuestions ∧
      (handleExport token remote now s).1.showExport = s.showExport ∧
      (handleExport token remote now s).1.selectedEbook = s.selectedEbook ∧
      (handleExport token remote now s).1.questionTypes = s.questionTypes ∧
      (handleExport token remote now s).1.difficulty = s.difficulty ∧
      (handleExport token remote now s).1.numQuestions = s.numQuestions) ∧
    ∀ (result : Except AxiosError (List Nat)) (live : GeneratePageState),
      (handleExportSettle result now live).1.generatedQuestions = live.generatedQuestions ∧
      (handleExportSettle result now live).1.showExport = live.showExport ∧
      (handleExportSettle result now live).1.selectedEbook = live.selectedEbook ∧
      (handleExportSettle result now live).1.questionTypes = live.questionTypes ∧
      (handleExportSettle result now live).1.difficulty = live.difficulty ∧
      (handleExportSettle result now live).1.numQuestions = live.numQuestions := by
  have hsettle : ∀ (result : Except AxiosError (List Nat)) (live : GeneratePageState),
      (handleExportSettle result now live).1 = { live with exporting := false } := by
    intro result live
    cases result <;> rfl
  constructor
  · by_cases hValid : s.generatedQuestions ≠ [] ∧ s.studentName ≠ "" ∧ s.rollNumber ≠ "" ∧
        s.subject ≠ ""
    · rw [handleExport_of_valid token remote now s hValid.1 hValid.2.1 hValid.2.2.1
        hValid.2.2.2]
      simp [hsettle]
    · rw [handleExport_of_invalid token remote now s hValid]
      exact ⟨rfl, rfl, rfl, rfl, rfl, rfl⟩
  · intro result live
    rw [hsettle]
    exact ⟨rfl, rfl, rfl, rfl, rfl, rfl⟩

/-! ## Toggling a question type -/

theorem toggledQuestionTypes_of_mem (t : String) (l : List String) (h : t ∈ l) :
    toggledQuestionTypes t l = l.filter (fun u => u ≠ t) := by
  simp [toggledQuestionTypes, h]

theorem toggledQuestionTypes_of_not_mem (t : String) (l : List String) (h : t ∉ l) :
    toggledQuestionTypes t l = l ++ [t] := by
  simp [toggledQuestionTypes, h]

theorem not_mem_filter_ne (t : String) (l : List String) :
    t ∉ l.filter (fun u => u ≠ t) := by
  simp

theorem filter_ne_of_not_mem (t : String) (l : List String) (h : t ∉ l) :
    l.filter (fun u => u ≠ t) = l := by
  rw [List.filter_eq_self]
  intro u hu
  have : u ≠ t := fun e => h (e ▸ hu)
  simpa using this

theorem filter_ne_append_self (t : String) (l : List String) :
    (l ++ [t]).filter (fun u => u ≠ t) = l.filter (fun u => u ≠ t) := by
  simp

theorem filter_ne_idem (t : String) (l : List String) :
    (l.filter (fun u => u ≠ t)).filter (fun u => u ≠ t) = l.filter (fun u => u ≠ t) := by
  simp

theorem nodup_append_singleton (t : String) (l : List String) (hl : l.Nodup) (h : t ∉ l) :
    (l ++ [t]).Nodup := by
  rw [List.nodup_append]
  refine ⟨hl, List.nodup_singleton t, ?_⟩
  intro a ha hb
  rw [List.mem_singleton] at hb
  exact h (hb ▸ ha)

theorem filter_ne_eq_erase (t : String) (l : List String) (hl : l.Nodup) :
    l.filter (fun u => u ≠ t) = l.erase t := by
  rw [hl.erase_eq_filter]
  apply List.filter_congr
  intro u _
  by_cases h : u = t
  · simp [h]
  · simp [h, bne_iff_ne]

/-- C25: on a duplicate-free list `l`, toggling `t` flips the membership of `t`,
keeps every other type with its membership and its place among the others, and
gives a duplicate-free list; when `t` was in `l` the result is `l` without any
`t`, and when it was not the result is `l` with `t` added at the end. -/
theorem toggleQuestionType_flips (s : GeneratePageState) (l : List String) (t : String)
    (hNodup : l.Nodup) :
    (toggleQuestionType t { s with questionTypes := l }).questionTypes =
      toggledQuestionTypes t l ∧
    (t ∈ toggledQuestionTypes t l ↔ t ∉ l) ∧
    (∀ u : String, u ≠ t → (u ∈ toggledQuestionTypes t l ↔ u ∈ l)) ∧
    (toggledQuestionTypes t l).filter (fun u => u ≠ t) = l.filter (fun u => u ≠ t) ∧
    (toggledQuestionTypes t l).Nodup ∧
    (t ∈ l → toggledQuestionTypes t l = l.filter (fun u => u ≠ t) ∧
      toggledQuestionTypes t l = l.erase t ∧ (toggledQuestionTypes t l).count t = 0) ∧
    (t ∉ l → toggledQuestionTypes t l = l ++ [t]) := by
  refine ⟨rfl, ?_, ?_, ?_, ?_, ?_, toggledQuestionTypes_of_not_mem t l⟩
  · by_cases h : t ∈ l
    · rw [toggledQuestionTypes_of_mem t l h]
      exact ⟨fun hmem => absurd hmem (not_mem_filter_ne t l), fun hnot => absurd h hnot⟩
    · rw [toggledQuestionTypes_of_not_mem t l h]
      exact ⟨fun _ => h, fun _ => List.mem_append_right l (List.mem_singleton.mpr rfl)⟩
  · intro u hu
    by_cases h : t ∈ l
    · rw [toggledQuestionTypes_of_mem t l h]
      simp [hu]
    · rw [toggledQuestionTypes_of_not_mem t l h]
      simp [hu]
  · by_cases h : t ∈ l
    · rw [toggledQuestionTypes_of_mem t l h, filter_ne_idem]
    · rw [toggledQuestionTypes_of_not_mem t l h, filter_ne_append_self]
  · by_cases h : t ∈ l
    · rw [toggledQuestionTypes_of_mem t l h]
      exact hNodup.filter _
    · rw [toggledQuestionTypes_of_not_mem t l h]
      exact nodup_append_singleton t l hNodup h
  · intro h
    refine ⟨toggledQuestionTypes_of_mem t l h, ?_, ?_⟩
    · rw [toggledQuestionTypes_of_mem t l h, filter_ne_eq_erase t l hNodup]
    · rw [toggledQuestionTypes_of_mem t l h]
      exact List.count_eq_zero.mpr (not_mem_filter_ne t l)

/-- Witness of C25: unticking MCQ and ticking Case Study. -/
theorem toggleQuestionType_flips_witness :
    toggledQuestionTypes "MCQ" ["MCQ", "Short Answer", "Long Answer"] =
      ["Short Answer", "Long Answer"] ∧
    toggledQuestionTypes "Case Study" ["MCQ", "Short Answer"] =
      ["MCQ", "Short Answer", "Case Study"] :=
  ⟨((toggleQuestionType_flips GeneratePageState.initial
      ["MCQ", "Short Answer", "Long Answer"] "MCQ" (by decide)).2.2.2.2.2.1
        (by decide)).1.trans (by decide),
    (toggleQuestionType_flips GeneratePageState.initial ["MCQ", "Short Answer"] "Case Study"
      (by decide)).2.2.2.2.2.2 (by decide)⟩

/-- C26: on a duplicate-free list `l`, toggling `t` twice gives a list with the
same types as `l`: `l` itself when `t` was not in `l`, and `l` with `t` moved to
the last place when it was. -/
theorem toggleQuestionType_twice (s : GeneratePageState) (l : List String) (t : String)
    (hNodup : l.Nodup) :
    (toggleQuestionType t (toggleQuestionType t { s with questionTypes := l })).questionTypes =
      toggledQuestionTypes t (toggledQuestionTypes t l) ∧
    (∀ u : String, u ∈ toggledQuestionTypes t (toggledQuestionTypes t l) ↔ u ∈ l) ∧
    (toggledQuestionTypes t (toggledQuestionTypes t l)).Nodup ∧
    (toggledQuestionTypes t (toggledQuestionTypes t l)).length = l.length ∧
    (t ∉ l → toggledQuestionTypes t (toggledQuestionTypes t l) = l) ∧
    (t ∈ l → toggledQuestionTypes t (toggledQuestionTypes t l) =
        l.filter (fun u => u ≠ t) ++ [t] ∧
      toggledQuestionTypes t (toggledQuestionTypes t l) = l.erase t ++ [t]) := by
  have hadd : t ∉ l → toggledQuestionTypes t (toggledQuestionTypes t l) = l := by
    intro h
    rw [toggledQuestionTypes_of_not_mem t l h,
      toggledQuestionTypes_of_mem t (l ++ [t])
        (List.mem_append_right l (List.mem_singleton.mpr rfl)),
      filter_ne_append_self, filter_ne_of_not_mem t l h]
  have hdrop : t ∈ l → toggledQuestionTypes t (toggledQuestionTypes t l) =
      l.filter (fun u => u ≠ t) ++ [t] := by
    intro h
    rw [toggledQuestionTypes_of_mem t l h,
      toggledQuestionTypes_of_not_mem t _ (not_mem_filter_ne t l)]
  refine ⟨rfl, ?_, ?_, ?_, hadd, fun h => ⟨hdrop h, ?_⟩⟩
  · intro u
    by_cases h : t ∈ l
    · rw [hdrop h]
      by_cases hu : u = t
      · subst hu
        simp [h]
      · simp [hu]
    · rw [hadd h]
  · by_cases h : t ∈ l
    · rw [hdrop h]
      exact nodup_append_singleton t _ (hNodup.filter _) (not_mem_filter_ne t l)
    · rw [hadd h]
      exact hNodup
  · by_cases h : t ∈ l
    · rw [hdrop h, filter_ne_eq_erase t l hNodup, List.length_append,
        List.length_erase_of_mem h, List.length_singleton]
      have hpos : 0 < l.length := List.length_pos_of_mem h
      omega
    · rw [hadd h]
  · rw [hdrop h, filter_ne_eq_erase t l hNodup]

/-- Witness of C26: toggling MCQ twice moves it to the end; toggling Case Study
twice changes nothing. -/
theorem toggleQuestionType_twice_witness :
    toggledQuestionTypes "MCQ" (toggledQuestionTypes "MCQ" ["MCQ", "Short Answer"]) =
      ["Short Answer", "MCQ"] ∧
    toggledQuestionTypes "Case Study"
      (toggledQuestionTypes "Case Study" ["MCQ", "Short Answer"]) = ["MCQ", "Short Answer"] :=
  ⟨((toggleQuestionType_twice GeneratePageState.initial ["MCQ", "Short Answer"] "MCQ"
      (by decide)).2.2.2.2.2 (by decide)).1.trans (by decide),
    (toggleQuestionType_twice GeneratePageState.initial ["MCQ", "Short Answer"] "Case Study"
      (by decide)).2.2.2.2.1 (by decide)⟩

end Frontend
